import Mathlib

/-!
OpenConnect VPN plugin (`vpn/plugins/openconnect.c`).

A shallow embedding of the OpenConnect driver of the ConnMan VPN daemon:
`oc_notify`, `request_input_cookie_reply`, `request_cookie_input`, `run_connect`,
`request_input_cb`, `oc_connect`, `oc_save` and `oc_error_code`, followed by the
properties proved about them.

Conventions of the embedding.

* A C string (`char *`) is an `Option CStr`: `none` is the `NULL` pointer and
  `some s` a string whose bytes, up to the terminating NUL, are the list `s`.
  Strings read out of a D-Bus message are never `NULL`, so they are plain `CStr`.
* Local variables of a C loop become the fields of a structure that is threaded
  through the iterations.
* Functions of the daemon that live outside this source file are modelled from
  the specification; each such definition says so in its documentation.
-/

namespace OpenConnect

/-! ## Strings -/

/-- The bytes of a C string up to its terminating NUL, one `Char` per byte. -/
abbrev CStr := List Char

/-- The C function `strchr(s, c)`: the index of the first occurrence of `c` in `s`, `none` when
`c` does not occur (the C function returns the pointer `s + i`, or `NULL`). -/
def strchr : CStr → Char → Option Nat
  | [], _ => none
  | x :: xs, c => if x = c then some 0 else (strchr xs c).map (· + 1)

/-- The C function `g_strndup(s, n)`: a copy of at most the first `n` bytes of `s`. -/
def g_strndup (s : CStr) (n : Nat) : CStr := s.take n

/-- The C function `g_str_has_prefix(s, prefix)`. -/
def g_str_has_prefix (s pre : CStr) : Bool := pre.isPrefixOf s

/-- The C function `isspace` in the C locale. -/
def isspace (c : Char) : Bool :=
  c = ' ' || c = '\t' || c = '\n' || c = Char.ofNat 11 || c = Char.ofNat 12 || c = '\r'

/-- The C function `isdigit`. -/
def isdigit (c : Char) : Bool := decide ('0' ≤ c) && decide (c ≤ '9')

/-- The constant `LONG_MAX` of an LP64 platform. -/
def LONG_MAX : Int := 2 ^ 63 - 1

/-- The constant `LONG_MIN` of an LP64 platform. -/
def LONG_MIN : Int := -(2 ^ 63)

/-- The digit loop of `strtol` in base 10: the value of the longest run of decimal digits at
the head of the string, accumulated from `acc`. -/
def strtol_digits : CStr → Nat → Nat
  | [], acc => acc
  | c :: cs, acc => if isdigit c then strtol_digits cs (acc * 10 + (c.toNat - '0'.toNat)) else acc

/-- The C function `strtol(s, NULL, 10)`: skips leading white space, reads an optional sign and
the longest run of decimal digits (0 when there is none), and clamps the result to `LONG_MIN
.. LONG_MAX`. -/
def strtol (s : CStr) : Int :=
  match s.dropWhile isspace with
  | '-' :: cs =>
      let v : Int := -(strtol_digits cs 0 : Int)
      if v < LONG_MIN then LONG_MIN else v
  | '+' :: cs =>
      let v : Int := (strtol_digits cs 0 : Int)
      if LONG_MAX < v then LONG_MAX else v
  | cs =>
      let v : Int := (strtol_digits cs 0 : Int)
      if LONG_MAX < v then LONG_MAX else v

/-- Conversion of an integer to `unsigned char`: reduction modulo `2 ^ 8`. -/
def to_uchar (x : Int) : Nat := (x % 256).toNat

/-! ## Collaborators of the plugin -/

/-- The states a driver's `notify` hook reports (`enum vpn_state`); only the three values
that `oc_notify` returns are needed. -/
inductive vpn_state where
  | VPN_STATE_CONNECT
  | VPN_STATE_DISCONNECT
  | VPN_STATE_FAILURE
  deriving DecidableEq, Repr

/-- Address families handed to `connman_ipaddress_alloc`. -/
inductive sa_family where
  | AF_INET
  | AF_INET6
  deriving DecidableEq, Repr

/-- Modelled from the spec: `struct connman_ipaddress` (declared in `connman/ipconfig.h`,
which is not part of this source file).  One address block of a network configuration: its
family, the local address, the netmask (IPv4) or prefix length (IPv6) and the gateway. -/
structure connman_ipaddress where
  family : sa_family
  address : Option CStr
  netmask : Option CStr
  prefixlen : Nat
  gateway : Option CStr
  deriving DecidableEq, Repr

/-- Modelled from the spec: `connman_ipaddress_alloc(family)`, defined outside this source
file.  Returns a fresh, empty block of the family, or `NULL` when the allocation fails
(`ok = false`). -/
def connman_ipaddress_alloc (ok : Bool) (family : sa_family) : Option connman_ipaddress :=
  if ok then
    some { family := family, address := none, netmask := none, prefixlen := 0, gateway := none }
  else none

/-- Modelled from the spec: `connman_ipaddress_set_ipv4(ipaddress, address, netmask,
gateway)`, defined outside this source file.  Fills the block as an IPv4 block. -/
def connman_ipaddress_set_ipv4 (ipaddress : connman_ipaddress)
    (address netmask gateway : Option CStr) : connman_ipaddress :=
  { ipaddress with
    family := sa_family.AF_INET, address := address, netmask := netmask, gateway := gateway }

/-- Modelled from the spec: `connman_ipaddress_set_ipv6(ipaddress, address, prefix_length,
gateway)`, defined outside this source file.  Fills the block as an IPv6 block. -/
def connman_ipaddress_set_ipv6 (ipaddress : connman_ipaddress)
    (address : Option CStr) (prefix_length : Nat) (gateway : Option CStr) : connman_ipaddress :=
  { ipaddress with
    family := sa_family.AF_INET6, address := address, prefixlen := prefix_length,
    gateway := gateway }

/-- A string key/value store: the first entry with a given key holds its value. -/
abbrev kv_store := List (CStr × CStr)

/-- Value stored under `key`, `none` (`NULL`) when the key is absent. -/
def kv_get (s : kv_store) (key : CStr) : Option CStr :=
  (s.find? (fun e => e.1 = key)).map (·.2)

/-- Store `value` under `key`, replacing what was there. -/
def kv_set (s : kv_store) (key value : CStr) : kv_store :=
  (key, value) :: s.filter (fun e => e.1 ≠ key)

/-- Modelled from the spec: `struct vpn_provider` (defined in `vpn-provider.c`, which is not
part of this source file).  The provider holds a string key/value store of settings (`Host`,
`OpenConnect.Cookie`, `OpenConnect.ServerCert`, `OpenConnect.CACert`, `VPN.MTU`, ...) and the
network configuration applied to it: nameservers, proxy auto-config URL, split-include
routes, address block and search domain (the `VPN.Domain` setting). -/
structure vpn_provider where
  settings : kv_store
  save_group : CStr
  nameservers : Option CStr
  pac : Option CStr
  routes : List (CStr × CStr)
  ipaddress : Option connman_ipaddress
  domain : Option CStr
  deriving DecidableEq, Repr

/-- Modelled from the spec: `vpn_provider_get_string(provider, key)`, defined outside this
source file.  Reads a named setting; `VPN.Domain` names the provider's domain. -/
def vpn_provider_get_string (provider : vpn_provider) (key : CStr) : Option CStr :=
  if key = "VPN.Domain".toList then provider.domain else kv_get provider.settings key

/-- Modelled from the spec: `vpn_provider_set_string(provider, key, value)`, defined outside
this source file.  Writes a named setting. -/
def vpn_provider_set_string (provider : vpn_provider) (key value : CStr) : vpn_provider :=
  if key = "VPN.Domain".toList then { provider with domain := some value }
  else { provider with settings := kv_set provider.settings key value }

/-- Modelled from the spec: `vpn_provider_set_nameservers(provider, nameservers)`, defined
outside this source file.  The string is handed over verbatim and replaces the nameservers
of the provider. -/
def vpn_provider_set_nameservers (provider : vpn_provider) (nameservers : CStr) :
    vpn_provider :=
  { provider with nameservers := some nameservers }

/-- Modelled from the spec: `vpn_provider_set_pac(provider, pac)`, defined outside this
source file.  Sets the proxy auto-config URL. -/
def vpn_provider_set_pac (provider : vpn_provider) (pac : CStr) : vpn_provider :=
  { provider with pac := some pac }

/-- Modelled from the spec: `vpn_provider_append_route(provider, key, value)`, defined
outside this source file.  Each call adds one route entry, key and value verbatim. -/
def vpn_provider_append_route (provider : vpn_provider) (key value : CStr) : vpn_provider :=
  { provider with routes := provider.routes ++ [(key, value)] }

/-- Modelled from the spec: `vpn_provider_set_ipaddress(provider, ipaddress)`, defined
outside this source file.  Sets the address block of the provider. -/
def vpn_provider_set_ipaddress (provider : vpn_provider) (ipaddress : connman_ipaddress) :
    vpn_provider :=
  { provider with ipaddress := some ipaddress }

/-- Modelled from the spec: `vpn_provider_set_domain(provider, domain)`, defined outside
this source file.  Sets the search domain of the provider. -/
def vpn_provider_set_domain (provider : vpn_provider) (domain : Option CStr) : vpn_provider :=
  { provider with domain := domain }

/-! ## `oc_notify` -/

/-- The body of the notification the tunnel process sends: the reason string followed by a
dictionary of string keys and string values, in wire order. -/
structure notify_message where
  reason : CStr
  dict : List (CStr × CStr)
  deriving DecidableEq, Repr

/-- The local variables of `oc_notify` that the loop over the dictionary updates. -/
structure notify_locals where
  domain : Option CStr
  addressv4 : Option CStr
  addressv6 : Option CStr
  netmask : Option CStr
  gateway : Option CStr
  prefix_len : Nat
  deriving DecidableEq, Repr

/-- One iteration of the `while` loop of `oc_notify`, for the entry `key = value`.  The
`DBG` trace of the entry has no effect on the result and is left out. -/
def oc_notify_entry (key value : CStr) (l : notify_locals) (provider : vpn_provider) :
    notify_locals × vpn_provider :=
  let l := if key = "VPNGATEWAY".toList then { l with gateway := some value } else l
  let l := if key = "INTERNAL_IP4_ADDRESS".toList then { l with addressv4 := some value } else l
  let l :=
    if key = "INTERNAL_IP6_ADDRESS".toList then
      { l with addressv6 := some value, prefix_len := 128 }
    else l
  let l := if key = "INTERNAL_IP4_NETMASK".toList then { l with netmask := some value } else l
  let l :=
    if key = "INTERNAL_IP6_NETMASK".toList then
      match strchr value '/' with
      | some sep =>
          let ip_len := sep % 256
          { l with
            addressv6 := some (g_strndup value ip_len),
            prefix_len := to_uchar (strtol (value.drop (sep + 1))) }
      | none => l
    else l
  let provider :=
    if key = "INTERNAL_IP4_DNS".toList ∨ key = "INTERNAL_IP6_DNS".toList then
      vpn_provider_set_nameservers provider value
    else provider
  let provider :=
    if key = "CISCO_PROXY_PAC".toList then vpn_provider_set_pac provider value else provider
  let l :=
    if l.domain = none ∧ key = "CISCO_DEF_DOMAIN".toList then { l with domain := some value }
    else l
  let provider :=
    if g_str_has_prefix key "CISCO_SPLIT_INC".toList = true ∨
        g_str_has_prefix key "CISCO_IPV6_SPLIT_INC".toList = true then
      vpn_provider_append_route provider key value
    else provider
  (l, provider)

/-- The `while` loop of `oc_notify` over the entries of the dictionary. -/
def oc_notify_loop : List (CStr × CStr) → notify_locals → vpn_provider →
    notify_locals × vpn_provider
  | [], l, provider => (l, provider)
  | (key, value) :: rest, l, provider =>
      let r := oc_notify_entry key value l provider
      oc_notify_loop rest r.1 r.2

/-- The local variables of `oc_notify` when the loop is entered: all `NULL` (and
`prefix_len = 0`), except `domain`, a copy of the provider's `VPN.Domain`. -/
def oc_notify_locals (provider : vpn_provider) : notify_locals :=
  { domain := vpn_provider_get_string provider "VPN.Domain".toList, addressv4 := none,
    addressv6 := none, netmask := none, gateway := none, prefix_len := 0 }

/-- The C function `oc_notify(msg, provider)`: the state reported to the framework and the
provider as the call leaves it.  `alloc_ok` tells whether `connman_ipaddress_alloc`
succeeds. -/
def oc_notify (alloc_ok : Bool) (msg : notify_message) (provider : Option vpn_provider) :
    vpn_state × Option vpn_provider :=
  match provider with
  | none => (vpn_state.VPN_STATE_FAILURE, none)
  | some provider =>
    if msg.reason ≠ "connect".toList then (vpn_state.VPN_STATE_DISCONNECT, some provider)
    else
      let r := oc_notify_loop msg.dict (oc_notify_locals provider) provider
      let l := r.1
      let provider := r.2
      let ipaddress :=
        if l.addressv4 ≠ none then connman_ipaddress_alloc alloc_ok sa_family.AF_INET
        else if l.addressv6 ≠ none then connman_ipaddress_alloc alloc_ok sa_family.AF_INET6
        else none
      match ipaddress with
      | none => (vpn_state.VPN_STATE_FAILURE, some provider)
      | some ipaddress =>
        let ipaddress :=
          if l.addressv4 ≠ none then
            connman_ipaddress_set_ipv4 ipaddress l.addressv4 l.netmask l.gateway
          else
            connman_ipaddress_set_ipv6 ipaddress l.addressv6 l.prefix_len l.gateway
        let provider := vpn_provider_set_ipaddress provider ipaddress
        let provider := vpn_provider_set_domain provider l.domain
        (vpn_state.VPN_STATE_CONNECT, some provider)

/-! ## Error numbers (`errno.h`, Linux) -/

/-- The constant `ESRCH`. -/
def ESRCH : Int := 3

/-- The constant `EIO`. -/
def EIO : Int := 5

/-- The constant `ENOMEM`. -/
def ENOMEM : Int := 12

/-- The constant `EBUSY`. -/
def EBUSY : Int := 16

/-- The constant `EINVAL`. -/
def EINVAL : Int := 22

/-- The constant `EINPROGRESS`. -/
def EINPROGRESS : Int := 115

/-! ## The credential request: `request_input_cookie_reply`, `request_cookie_input` -/

/-- What a D-Bus variant holds, as far as the reply scanner tells: a string, or a value of
another type. -/
inductive dbus_variant where
  | string (s : CStr)
  | other
  deriving DecidableEq, Repr

/-- One argument of a D-Bus dict entry, by its type: a string, a variant, or an argument
of another type. -/
inductive dbus_arg where
  | string (s : CStr)
  | variant (v : dbus_variant)
  | other
  deriving DecidableEq, Repr

/-- A dict entry of the reply of the agent: its key and its value. -/
structure dbus_dict_entry where
  key : dbus_arg
  value : dbus_arg
  deriving DecidableEq, Repr

/-- The reply of the agent to `RequestInput`: an error message with its name, or a method
return.  Modelled from the spec: `vpn_agent_check_reply_has_dict` (defined in `vpn-agent.c`,
outside this source file) tells whether the body of the reply is a dictionary; `dict` is
`none` when it is not, and the entries of the dictionary in wire order when it is. -/
inductive dbus_reply where
  | error (name : CStr)
  | method_return (dict : Option (List dbus_dict_entry))
  deriving DecidableEq, Repr

/-- The `while` loop of `request_input_cookie_reply`: scans the entries, keeping in `cookie`
the string of the `OpenConnect.Cookie` entries met so far, and leaves the loop (`break`) at
the first entry whose key is not a string or whose `OpenConnect.Cookie` value is not a
variant holding a string. -/
def request_input_cookie_scan : List dbus_dict_entry → Option CStr → Option CStr
  | [], cookie => cookie
  | entry :: rest, cookie =>
    match entry.key with
    | dbus_arg.string key =>
        if key = "OpenConnect.Cookie".toList then
          match entry.value with
          | dbus_arg.variant (dbus_variant.string s) => request_input_cookie_scan rest (some s)
          | _ => cookie
        else request_input_cookie_scan rest cookie
    | _ => cookie

/-- The C function `request_input_cookie_reply(reply, user_data)`.  `callback` is the
continuation stored in the `struct request_input_reply`, already applied to the stored
provider and user data; the result of the function is the one call `callback cookie error`
it makes. -/
def request_input_cookie_reply {α : Type} (reply : dbus_reply)
    (callback : Option CStr → Option CStr → α) : α :=
  match reply with
  | dbus_reply.error name => callback none (some name)
  | dbus_reply.method_return none => callback none none
  | dbus_reply.method_return (some dict) =>
      callback (request_input_cookie_scan dict none) none

/-- What the calls made by `request_cookie_input` into the rest of the daemon answer. -/
structure agent_env where
  /-- The agent path `connman_agent_get_info` reports, `none` when no agent is registered. -/
  agent_path : Option CStr
  /-- Whether `dbus_message_new_method_call` returns a message. -/
  message_ok : Bool
  /-- Whether `g_try_new0` returns the `struct request_input_reply`. -/
  cookie_reply_ok : Bool
  /-- The value `connman_agent_queue_message` returns. -/
  queue_err : Int

/-- The C function `request_cookie_input(provider, callback, user_data)`: the value returned,
and the continuation left with the agent queue (`none` when the reply record was not handed
over or was freed again). -/
def request_cookie_input {α : Type} (env : agent_env) (provider : Option vpn_provider)
    (callback : Option (Option CStr → Option CStr → α)) :
    Int × Option (Option CStr → Option CStr → α) :=
  if provider.isNone ∨ env.agent_path.isNone ∨ callback.isNone then (-ESRCH, none)
  else if env.message_ok = false then (-ENOMEM, none)
  else if env.cookie_reply_ok = false then (-ENOMEM, none)
  else
    let err := env.queue_err
    if err < 0 ∧ err ≠ -EBUSY then (err, none)
    else (-EINPROGRESS, callback)

/-! ## Launching the client: `run_connect` -/

/-- Modelled from the spec: `struct connman_task` (defined in `task.c`, outside this source
file).  The argument vector built so far, whether the process was spawned, and the bytes
written to the pipe connected to its standard input. -/
structure connman_task where
  argv : List CStr
  running : Bool
  stdin : List Char
  deriving DecidableEq, Repr

/-- Modelled from the spec: `connman_task_add_argument(task, name, value)`, defined outside
this source file.  Appends `name`, followed by `value` when one is given; a `NULL` name
adds nothing. -/
def connman_task_add_argument (task : connman_task) (name : Option CStr)
    (value : Option CStr) : connman_task :=
  match name with
  | none => task
  | some n => { task with argv := task.argv ++ n :: value.toList }

/-- Modelled from the spec: `connman_task_run(task, ...)`, defined outside this source file.
`err` is the value it returns; the process is spawned unless `err` is negative. -/
def connman_task_run (err : Int) (task : connman_task) : Int × connman_task :=
  (err, if err < 0 then task else { task with running := true })

/-- The C function `write(fd, buf, len)` on the pipe of the task, returning `ret`: the first
`ret` bytes of `buf` reach the standard input of the process (none when `ret` is negative). -/
def write (ret : Int) (task : connman_task) (buf : CStr) : connman_task :=
  { task with stdin := task.stdin ++ buf.take ret.toNat }

/-- The build-time constant and the answers of the system calls `run_connect` depends on. -/
structure connect_env where
  /-- The macro `SCRIPTDIR`. -/
  SCRIPTDIR : CStr
  /-- The value `connman_task_run` returns. -/
  task_run_err : Int
  /-- The value `write(fd, vpncookie, len)` returns. -/
  write_cookie : Int
  /-- The value `write(fd, "\n", 1)` returns. -/
  write_newline : Int

/-- The objects `run_connect` acts on: the provider, the task, and the statuses handed to
the completion callback `cb` so far, oldest first. -/
structure oc_world where
  provider : vpn_provider
  task : connman_task
  cb_calls : List Int
  deriving DecidableEq, Repr

/-- The part of `run_connect` before the label `done`: the value of `err` there, and the
provider and task as they are left.  `vpnhost` is the `Host` setting read on entry. -/
def run_connect_body (env : connect_env) (provider : vpn_provider) (task : connman_task)
    (if_name : CStr) (vpnhost : Option CStr) (vpncookie : Option CStr) :
    Int × vpn_provider × connman_task :=
  match vpncookie with
  | none => (-EINVAL, provider, task)
  | some cookie =>
    let provider := vpn_provider_set_string provider "OpenConnect.Cookie".toList cookie
    let certsha1 := vpn_provider_get_string provider "OpenConnect.ServerCert".toList
    let task :=
      if certsha1 ≠ none then
        connman_task_add_argument task (some "--servercert".toList) certsha1
      else task
    let cafile := vpn_provider_get_string provider "OpenConnect.CACert".toList
    let mtu := vpn_provider_get_string provider "VPN.MTU".toList
    let task :=
      if cafile ≠ none then connman_task_add_argument task (some "--cafile".toList) cafile
      else task
    let task :=
      if mtu ≠ none then connman_task_add_argument task (some "--mtu".toList) mtu else task
    let task := connman_task_add_argument task (some "--syslog".toList) none
    let task := connman_task_add_argument task (some "--cookie-on-stdin".toList) none
    let task := connman_task_add_argument task (some "--script".toList)
      (some (env.SCRIPTDIR ++ "/openconnect-script".toList))
    let task := connman_task_add_argument task (some "--interface".toList) (some if_name)
    let task := connman_task_add_argument task vpnhost none
    let r := connman_task_run env.task_run_err task
    let err := r.1
    let task := r.2
    if err < 0 then (- EIO, provider, task)
    else
      let len : Int := cookie.length
      let task := write env.write_cookie task cookie
      if env.write_cookie ≠ len then (- EIO, provider, task)
      else
        let task := write env.write_newline task "\n".toList
        if env.write_newline ≠ 1 then (- EIO, provider, task)
        else (err, provider, task)

/-- The C function `run_connect(provider, task, if_name, cb, user_data, vpncookie)`: the value
returned and the provider, task and callback record as the call leaves them.  `cb` tells
whether the completion callback is non-`NULL`; when it is, it is called once, at `done`,
with `err`. -/
def run_connect (env : connect_env) (w : oc_world) (if_name : CStr) (cb : Bool)
    (vpncookie : Option CStr) : Int × oc_world :=
  let vpnhost := vpn_provider_get_string w.provider "Host".toList
  let r := run_connect_body env w.provider w.task if_name vpnhost vpncookie
  let err := r.1
  let cb_calls := if cb then w.cb_calls ++ [err] else w.cb_calls
  (err, { provider := r.2.1, task := r.2.2, cb_calls := cb_calls })

/-! ## The driver surface: `request_input_cb`, `oc_connect`, `oc_save`, `oc_error_code` -/

/-- The fields of `struct oc_private_data` that `request_input_cb` reads.  The task is the
task of the world the continuation runs in; `cb` tells whether the completion callback kept
in the record is non-`NULL` (its `user_data` is handed back unchanged). -/
structure oc_private_data where
  if_name : CStr
  cb : Bool
  deriving DecidableEq, Repr

/-- The C function `request_input_cb(provider, vpncookie, error, user_data)`: the
continuation of the credential request.  It traces `error` and calls `run_connect` with the
task, interface name and completion callback kept in `data`; `env` holds what the system
answers when the continuation runs and `w` is the world at that time. -/
def request_input_cb (data : oc_private_data) (vpncookie _error : Option CStr)
    (env : connect_env) (w : oc_world) : oc_world :=
  (run_connect env w data.if_name data.cb vpncookie).2

/-- The C function `oc_connect(provider, task, if_name, cb, user_data)`: the value returned,
the world as the call leaves it, and the continuation left with the agent queue.
`data_ok` tells whether `g_try_new0` returns the `struct oc_private_data`. -/
def oc_connect (cenv : connect_env) (aenv : agent_env) (data_ok : Bool) (w : oc_world)
    (if_name : CStr) (cb : Bool) :
    Int × oc_world × Option (Option CStr → Option CStr → connect_env → oc_world → oc_world) :=
  let vpnhost := vpn_provider_get_string w.provider "Host".toList
  if vpnhost = none then (-EINVAL, w, none)
  else
    let vpncookie := vpn_provider_get_string w.provider "OpenConnect.Cookie".toList
    if vpncookie = none then
      if data_ok = false then (-ENOMEM, w, none)
      else
        let data : oc_private_data := { if_name := if_name, cb := cb }
        let r := request_cookie_input aenv (some w.provider) (some (request_input_cb data))
        let err := r.1
        if err ≠ -EINPROGRESS then
          let rc := run_connect cenv w if_name cb vpncookie
          (rc.1, rc.2, r.2)
        else (err, w, r.2)
    else
      let rc := run_connect cenv w if_name cb vpncookie
      (rc.1, rc.2, none)

/-- The contents of a `GKeyFile`: the string stored under a group name and a key, `none`
when the group has no such key. -/
abbrev GKeyFile := CStr → CStr → Option CStr

/-- The GLib function `g_key_file_set_string(keyfile, group, key, value)`: afterwards the
key of the group holds `value`; every other key of every group is as before. -/
def g_key_file_set_string (keyfile : GKeyFile) (group key value : CStr) : GKeyFile :=
  fun g k => if g = group ∧ k = key then some value else keyfile g k

/-- Modelled from the spec: `vpn_provider_get_save_group(provider)`, defined outside this
source file.  The group of the key file under which the provider is saved. -/
def vpn_provider_get_save_group (provider : vpn_provider) : CStr := provider.save_group

/-- The C function `oc_save(provider, keyfile)`: the value returned and the key file as the
call leaves it. -/
def oc_save (provider : vpn_provider) (keyfile : GKeyFile) : Int × GKeyFile :=
  let keyfile :=
    match vpn_provider_get_string provider "OpenConnect.ServerCert".toList with
    | some setting =>
        g_key_file_set_string keyfile (vpn_provider_get_save_group provider)
          "OpenConnect.ServerCert".toList setting
    | none => keyfile
  let keyfile :=
    match vpn_provider_get_string provider "OpenConnect.CACert".toList with
    | some setting =>
        g_key_file_set_string keyfile (vpn_provider_get_save_group provider)
          "OpenConnect.CACert".toList setting
    | none => keyfile
  let keyfile :=
    match vpn_provider_get_string provider "VPN.MTU".toList with
    | some setting =>
        g_key_file_set_string keyfile (vpn_provider_get_save_group provider)
          "VPN.MTU".toList setting
    | none => keyfile
  (0, keyfile)

/-- The error kinds `oc_error_code` reports (`enum vpn_provider_error`); only the three
values that it returns are needed. -/
inductive vpn_provider_error where
  | VPN_PROVIDER_ERROR_UNKNOWN
  | VPN_PROVIDER_ERROR_LOGIN_FAILED
  | VPN_PROVIDER_ERROR_CONNECT_FAILED
  deriving DecidableEq, Repr

/-- The C function `oc_error_code(exit_code)`. -/
def oc_error_code (exit_code : Int) : vpn_provider_error :=
  if exit_code = 1 then vpn_provider_error.VPN_PROVIDER_ERROR_CONNECT_FAILED
  else if exit_code = 2 then vpn_provider_error.VPN_PROVIDER_ERROR_LOGIN_FAILED
  else vpn_provider_error.VPN_PROVIDER_ERROR_UNKNOWN

/-- The IPv4 block of the configuration applied to the provider: address, netmask and
gateway; `none` when the provider's address block is not an IPv4 block. -/
def v4_block (provider : vpn_provider) : Option (Option CStr × Option CStr × Option CStr) :=
  match provider.ipaddress with
  | some ip =>
      if ip.family = sa_family.AF_INET then some (ip.address, ip.netmask, ip.gateway) else none
  | none => none

/-- The IPv6 block of the configuration applied to the provider: address, prefix length and
gateway; `none` when the provider's address block is not an IPv6 block. -/
def v6_block (provider : vpn_provider) : Option (Option CStr × Nat × Option CStr) :=
  match provider.ipaddress with
  | some ip =>
      if ip.family = sa_family.AF_INET6 then some (ip.address, ip.prefixlen, ip.gateway)
      else none
  | none => none

/-- The value of the last entry of `dict` whose key is `key`, `acc` when there is none:
what a variable assigned at every such entry holds after the loop. -/
def last_value (key : CStr) : List (CStr × CStr) → Option CStr → Option CStr
  | [], acc => acc
  | e :: rest, acc => last_value key rest (if e.1 = key then some e.2 else acc)

/-- The IPv6 address and prefix length that one dictionary entry yields, `none` when the
entry yields neither. -/
def ipv6_of_entry (key value : CStr) : Option (CStr × Nat) :=
  if key = "INTERNAL_IP6_ADDRESS".toList then some (value, 128)
  else if key = "INTERNAL_IP6_NETMASK".toList then
    match strchr value '/' with
    | some sep => some (g_strndup value (sep % 256), to_uchar (strtol (value.drop (sep + 1))))
    | none => none
  else none

/-- The address and prefix length of the last entry of `dict` that yields an IPv6 address,
`acc` when there is none. -/
def last_ipv6 : List (CStr × CStr) → Option CStr × Nat → Option CStr × Nat
  | [], acc => acc
  | e :: rest, acc =>
      last_ipv6 rest
        (match ipv6_of_entry e.1 e.2 with
         | some (a, n) => (some a, n)
         | none => acc)

/-- The value of the last entry of `dict` whose key is `INTERNAL_IP4_DNS` or
`INTERNAL_IP6_DNS`, `acc` when there is none: the nameservers the provider holds after the
loop. -/
def last_nameservers : List (CStr × CStr) → Option CStr → Option CStr
  | [], acc => acc
  | e :: rest, acc =>
      last_nameservers rest
        (if e.1 = "INTERNAL_IP4_DNS".toList ∨ e.1 = "INTERNAL_IP6_DNS".toList then some e.2
         else acc)

/-- Whether the key of a dictionary entry makes it a split-include route. -/
def is_split_include (key : CStr) : Bool :=
  g_str_has_prefix key "CISCO_SPLIT_INC".toList ||
    g_str_has_prefix key "CISCO_IPV6_SPLIT_INC".toList

/-- The number a string of decimal digits spells. -/
def decimal_value (digits : List Char) : Nat :=
  digits.foldl (fun acc c => acc * 10 + (c.toNat - '0'.toNat)) 0

/-- The leading decimal integer of `P`, 0 if there is none: after optional white space and
an optional sign, the number spelled by the longest run of decimal digits.  It is an
integer of any size; `strtol` is compared with it. -/
def leading_decimal (P : CStr) : Int :=
  match P.dropWhile isspace with
  | '-' :: cs => -(decimal_value (cs.takeWhile isdigit) : Int)
  | '+' :: cs => (decimal_value (cs.takeWhile isdigit) : Int)
  | cs => (decimal_value (cs.takeWhile isdigit) : Int)

/-- Whether the reply scanner finds the entry malformed: its key is not a string, or its
key is `OpenConnect.Cookie` and its value is not a variant holding a string. -/
def entry_malformed (entry : dbus_dict_entry) : Bool :=
  match entry.key with
  | dbus_arg.string key =>
      if key = "OpenConnect.Cookie".toList then
        match entry.value with
        | dbus_arg.variant (dbus_variant.string _) => false
        | _ => true
      else false
  | _ => true

/-- The cookie a dict entry carries: the string `s` when the entry maps the key
`OpenConnect.Cookie` to a variant holding `s`, `none` for every other entry. -/
def entry_cookie (entry : dbus_dict_entry) : Option CStr :=
  match entry.key, entry.value with
  | dbus_arg.string key, dbus_arg.variant (dbus_variant.string s) =>
      if key = "OpenConnect.Cookie".toList then some s else none
  | _, _ => none

/-- A connection environment in which the client starts and takes the cookie on its
standard input: `connman_task_run` returns 0 and both writes are complete. -/
def example_env (cookie : CStr) : connect_env :=
  { SCRIPTDIR := "/usr/lib/connman/scripts".toList, task_run_err := 0,
    write_cookie := cookie.length, write_newline := 1 }

/-- An agent environment with an agent registered and all allocations succeeding, in which
`connman_agent_queue_message` returns `queue_err`. -/
def example_agent (queue_err : Int) : agent_env :=
  { agent_path := some "/net/connman/vpn_agent".toList, message_ok := true,
    cookie_reply_ok := true, queue_err := queue_err }

/-- A provider with a host and nothing else configured, used to instantiate the theorems. -/
def example_provider : vpn_provider :=
  { settings := [("Host".toList, "vpn.example.com".toList)],
    save_group := "provider_vpn_example_com".toList,
    nameservers := none, pac := none, routes := [], ipaddress := none, domain := none }

/-- The provider `example_provider` with a task to which nothing was added yet and a
completion callback that was not called yet. -/
def example_world : oc_world :=
  { provider := example_provider, task := { argv := [], running := false, stdin := [] },
    cb_calls := [] }

/-! ## Properties of the strings and of the loop of `oc_notify` -/

theorem strchr_eq_none_iff (s : CStr) (c : Char) : strchr s c = none ↔ c ∉ s := by
  induction s with
  | nil => simp [strchr]
  | cons x xs ih =>
    by_cases h : x = c
    · simp [strchr, h]
    · simp [strchr, h, ih, Ne.symm h]

theorem strchr_append (a rest : CStr) (c : Char) (h : c ∉ a) :
    strchr (a ++ c :: rest) c = some a.length := by
  induction a with
  | nil => simp [strchr]
  | cons x xs ih =>
    have hx : x ≠ c := fun e => h (by simp [e])
    have hxs : c ∉ xs := fun m => h (List.mem_cons_of_mem _ m)
    simp [strchr, hx, ih hxs]

theorem digitChar_isdigit (m : Nat) (h : m < 10) :
    isdigit (Nat.digitChar m) = true ∧ (Nat.digitChar m).toNat - '0'.toNat = m ∧
      isspace (Nat.digitChar m) = false ∧ Nat.digitChar m ≠ '-' ∧ Nat.digitChar m ≠ '+' := by
  interval_cases m <;> decide

theorem strtol_digits_toDigitsCore (fuel : Nat) :
    ∀ n ds, n < fuel →
      (∃ k, ∀ acc, strtol_digits (Nat.toDigitsCore 10 fuel n ds) acc
          = strtol_digits ds (acc * 10 ^ k + n)) ∧
      (∃ m tl, m < 10 ∧ Nat.toDigitsCore 10 fuel n ds = Nat.digitChar m :: tl) := by
  induction fuel with
  | zero => intro n ds h; omega
  | succ fuel ih =>
    intro n ds h
    have hd := digitChar_isdigit (n % 10) (Nat.mod_lt _ (by norm_num))
    by_cases h0 : n / 10 = 0
    · have hn : n % 10 = n := by omega
      refine ⟨⟨1, fun acc => ?_⟩, ⟨n % 10, ds, Nat.mod_lt _ (by norm_num), ?_⟩⟩
      · simp only [Nat.toDigitsCore, h0, if_true, strtol_digits, hd.1, hd.2.1, pow_one]
        rw [hn]
      · simp only [Nat.toDigitsCore, h0, if_true]
    · have hlt : n / 10 < fuel := by omega
      obtain ⟨⟨k, hk⟩, ⟨m, tl, hm, htl⟩⟩ := ih (n / 10) (Nat.digitChar (n % 10) :: ds) hlt
      refine ⟨⟨k + 1, fun acc => ?_⟩, ⟨m, tl, hm, ?_⟩⟩
      · simp only [Nat.toDigitsCore, h0, if_false, hk, strtol_digits, hd.1, hd.2.1, if_true]
        congr 1
        have := Nat.div_add_mod n 10
        rw [pow_succ]
        nlinarith [this]
      · simp only [Nat.toDigitsCore, h0, if_false, htl]

theorem strtol_repr (n : Nat) (h : (n : Int) ≤ LONG_MAX) :
    strtol (Nat.repr n).toList = (n : Int) := by
  obtain ⟨⟨k, hk⟩, ⟨m, tl, hm, htl⟩⟩ := strtol_digits_toDigitsCore (n + 1) n [] (Nat.lt_succ_self n)
  have hd := digitChar_isdigit m hm
  have hrepr : (Nat.repr n).toList = Nat.toDigitsCore 10 (n + 1) n [] := rfl
  have hval : strtol_digits (Nat.digitChar m :: tl) 0 = n := by
    rw [← htl, hk 0]; simp [strtol_digits]
  rw [hrepr, htl]
  unfold strtol
  have hdw : List.dropWhile isspace (Nat.digitChar m :: tl) = Nat.digitChar m :: tl := by
    simp [List.dropWhile, hd.2.2.1]
  rw [hdw]
  split
  · rename_i cs heq
    exact absurd (List.cons.inj heq).1 hd.2.2.2.1
  · rename_i cs heq
    exact absurd (List.cons.inj heq).1 hd.2.2.2.2
  · simp only [hval]
    rw [if_neg (not_lt.mpr h)]

theorem ite_gateway (c : Prop) [Decidable c] (a b : notify_locals) :
    (if c then a else b).gateway = if c then a.gateway else b.gateway := by
  split <;> rfl

theorem ite_addressv4 (c : Prop) [Decidable c] (a b : notify_locals) :
    (if c then a else b).addressv4 = if c then a.addressv4 else b.addressv4 := by
  split <;> rfl

theorem ite_addressv6 (c : Prop) [Decidable c] (a b : notify_locals) :
    (if c then a else b).addressv6 = if c then a.addressv6 else b.addressv6 := by
  split <;> rfl

theorem ite_netmask (c : Prop) [Decidable c] (a b : notify_locals) :
    (if c then a else b).netmask = if c then a.netmask else b.netmask := by
  split <;> rfl

theorem ite_prefix_len (c : Prop) [Decidable c] (a b : notify_locals) :
    (if c then a else b).prefix_len = if c then a.prefix_len else b.prefix_len := by
  split <;> rfl

theorem ite_domain (c : Prop) [Decidable c] (a b : notify_locals) :
    (if c then a else b).domain = if c then a.domain else b.domain := by
  split <;> rfl

theorem entry_gateway (key value : CStr) (l : notify_locals) (provider : vpn_provider) :
    (oc_notify_entry key value l provider).1.gateway =
      if key = "VPNGATEWAY".toList then some value else l.gateway := by
  unfold oc_notify_entry
  cases strchr value '/' <;> simp only [ite_gateway, ite_self]

theorem entry_addressv4 (key value : CStr) (l : notify_locals) (provider : vpn_provider) :
    (oc_notify_entry key value l provider).1.addressv4 =
      if key = "INTERNAL_IP4_ADDRESS".toList then some value else l.addressv4 := by
  unfold oc_notify_entry
  cases strchr value '/' <;> simp only [ite_addressv4, ite_self]

theorem entry_netmask (key value : CStr) (l : notify_locals) (provider : vpn_provider) :
    (oc_notify_entry key value l provider).1.netmask =
      if key = "INTERNAL_IP4_NETMASK".toList then some value else l.netmask := by
  unfold oc_notify_entry
  cases strchr value '/' <;> simp only [ite_netmask, ite_self]

theorem entry_domain (key value : CStr) (l : notify_locals) (provider : vpn_provider) :
    (oc_notify_entry key value l provider).1.domain =
      if l.domain = none ∧ key = "CISCO_DEF_DOMAIN".toList then some value else l.domain := by
  unfold oc_notify_entry
  cases strchr value '/' <;> simp only [ite_domain, ite_self]

theorem entry_ipv6 (key value : CStr) (l : notify_locals) (provider : vpn_provider) :
    ((oc_notify_entry key value l provider).1.addressv6,
      (oc_notify_entry key value l provider).1.prefix_len) =
      (match ipv6_of_entry key value with
       | some (a, n) => (some a, n)
       | none => (l.addressv6, l.prefix_len)) := by
  unfold oc_notify_entry ipv6_of_entry
  by_cases h6 : key = "INTERNAL_IP6_ADDRESS".toList
  · have hn : ¬ key = "INTERNAL_IP6_NETMASK".toList := by rw [h6]; decide
    cases strchr value '/' <;>
      simp only [ite_addressv6, ite_prefix_len, ite_self, if_pos h6, if_neg hn]
  · cases strchr value '/' <;>
      simp only [ite_addressv6, ite_prefix_len, ite_self, if_neg h6]
    · split <;> rfl

theorem last_value_of_absent (key : CStr) (dict : List (CStr × CStr)) (acc : Option CStr)
    (h : ∀ e ∈ dict, e.1 ≠ key) : last_value key dict acc = acc := by
  induction dict generalizing acc with
  | nil => rfl
  | cons e rest ih =>
    have he : e.1 ≠ key := h e (List.mem_cons_self _ _)
    simp only [last_value, if_neg he]
    exact ih acc (fun x hx => h x (List.mem_cons_of_mem _ hx))

theorem last_value_ne_none (key : CStr) (dict : List (CStr × CStr)) (acc : Option CStr)
    (h : ∃ e ∈ dict, e.1 = key) : last_value key dict acc ≠ none := by
  induction dict generalizing acc with
  | nil => simp at h
  | cons e rest ih =>
    simp only [last_value]
    by_cases hr : ∃ x ∈ rest, x.1 = key
    · exact ih _ hr
    · have hr' : ∀ x ∈ rest, x.1 ≠ key := fun x hx hk => hr ⟨x, hx, hk⟩
      rw [last_value_of_absent key rest _ hr']
      obtain ⟨x, hx, hk⟩ := h
      rcases List.mem_cons.mp hx with rfl | hx
      · simp [hk]
      · exact absurd hk (hr' x hx)

theorem last_value_of_unique (key value : CStr) (dict : List (CStr × CStr))
    (acc : Option CStr) (hmem : (key, value) ∈ dict)
    (huniq : ∀ e ∈ dict, e.1 = key → e.2 = value) : last_value key dict acc = some value := by
  induction dict generalizing acc with
  | nil => simp at hmem
  | cons e rest ih =>
    simp only [last_value]
    have hrest : ∀ x ∈ rest, x.1 = key → x.2 = value :=
      fun x hx => huniq x (List.mem_cons_of_mem _ hx)
    by_cases hr : (key, value) ∈ rest
    · exact ih _ hr hrest
    · have he : e = (key, value) := by
        rcases List.mem_cons.mp hmem with h | h
        · exact h.symm
        · exact absurd h hr
      have hr' : ∀ x ∈ rest, x.1 ≠ key := by
        intro x hx hk
        apply hr
        have h2 := hrest x hx hk
        have hxe : x = (key, value) := Prod.ext hk h2
        rw [← hxe]; exact hx
      rw [last_value_of_absent key rest _ hr']
      simp [he]

theorem nodup_keys_unique (key value : CStr) (dict : List (CStr × CStr))
    (hnd : (dict.map Prod.fst).Nodup) (hmem : (key, value) ∈ dict) :
    ∀ e ∈ dict, e.1 = key → e.2 = value := by
  induction dict with
  | nil => simp at hmem
  | cons x rest ih =>
    rw [List.map_cons, List.nodup_cons] at hnd
    intro e he hk
    rcases List.mem_cons.mp hmem with h | h <;> rcases List.mem_cons.mp he with h' | h'
    · rw [h', ← h]
    · exfalso; apply hnd.1
      rw [← h]; simp only []
      rw [← hk]; exact List.mem_map_of_mem Prod.fst h'
    · exfalso; apply hnd.1
      rw [← h', hk]
      exact List.mem_map_of_mem Prod.fst h
    · exact ih hnd.2 h e h' hk

theorem loop_gateway (dict : List (CStr × CStr)) (l : notify_locals) (provider : vpn_provider) :
    (oc_notify_loop dict l provider).1.gateway =
      last_value "VPNGATEWAY".toList dict l.gateway := by
  induction dict generalizing l provider with
  | nil => rfl
  | cons e rest ih =>
    obtain ⟨key, value⟩ := e
    simp only [oc_notify_loop, last_value]
    rw [ih, entry_gateway]

theorem loop_addressv4 (dict : List (CStr × CStr)) (l : notify_locals)
    (provider : vpn_provider) :
    (oc_notify_loop dict l provider).1.addressv4 =
      last_value "INTERNAL_IP4_ADDRESS".toList dict l.addressv4 := by
  induction dict generalizing l provider with
  | nil => rfl
  | cons e rest ih =>
    obtain ⟨key, value⟩ := e
    simp only [oc_notify_loop, last_value]
    rw [ih, entry_addressv4]

theorem loop_netmask (dict : List (CStr × CStr)) (l : notify_locals) (provider : vpn_provider) :
    (oc_notify_loop dict l provider).1.netmask =
      last_value "INTERNAL_IP4_NETMASK".toList dict l.netmask := by
  induction dict generalizing l provider with
  | nil => rfl
  | cons e rest ih =>
    obtain ⟨key, value⟩ := e
    simp only [oc_notify_loop, last_value]
    rw [ih, entry_netmask]

theorem loop_ipv6 (dict : List (CStr × CStr)) (l : notify_locals) (provider : vpn_provider) :
    ((oc_notify_loop dict l provider).1.addressv6,
      (oc_notify_loop dict l provider).1.prefix_len) =
      last_ipv6 dict (l.addressv6, l.prefix_len) := by
  induction dict generalizing l provider with
  | nil => rfl
  | cons e rest ih =>
    obtain ⟨key, value⟩ := e
    simp only [oc_notify_loop, last_ipv6]
    rw [ih, entry_ipv6]

theorem loop_domain_of_some (dict : List (CStr × CStr)) (l : notify_locals)
    (provider : vpn_provider) (d : CStr) (h : l.domain = some d) :
    (oc_notify_loop dict l provider).1.domain = some d := by
  induction dict generalizing l provider with
  | nil => exact h
  | cons e rest ih =>
    obtain ⟨key, value⟩ := e
    simp only [oc_notify_loop]
    apply ih
    rw [entry_domain]
    simp [h]

theorem kv_get_cons (k v : CStr) (rest : kv_store) (key : CStr) :
    kv_get ((k, v) :: rest) key = if k = key then some v else kv_get rest key := by
  unfold kv_get
  by_cases h : k = key
  · simp [List.find?_cons, h]
  · simp [List.find?_cons, h]

theorem loop_domain_of_none (dict : List (CStr × CStr)) (l : notify_locals)
    (provider : vpn_provider) (h : l.domain = none) :
    (oc_notify_loop dict l provider).1.domain = kv_get dict "CISCO_DEF_DOMAIN".toList := by
  induction dict generalizing l provider with
  | nil => rw [oc_notify_loop, h]; rfl
  | cons e rest ih =>
    obtain ⟨key, value⟩ := e
    simp only [oc_notify_loop]
    rw [kv_get_cons]
    by_cases hk : key = "CISCO_DEF_DOMAIN".toList
    · rw [if_pos hk]
      apply loop_domain_of_some
      rw [entry_domain, if_pos ⟨h, hk⟩]
    · rw [if_neg hk]
      apply ih
      rw [entry_domain, if_neg (fun hc => hk hc.2)]
      exact h

theorem last_ipv6_of_none (dict : List (CStr × CStr)) (acc : Option CStr × Nat)
    (h : ∀ e ∈ dict, ipv6_of_entry e.1 e.2 = none) : last_ipv6 dict acc = acc := by
  induction dict generalizing acc with
  | nil => rfl
  | cons e rest ih =>
    simp only [last_ipv6, h e (List.mem_cons_self _ _)]
    exact ih acc (fun x hx => h x (List.mem_cons_of_mem _ hx))

theorem last_ipv6_of_const (dict : List (CStr × CStr)) (acc : Option CStr × Nat)
    (a : CStr) (n : Nat)
    (hall : ∀ e ∈ dict, ipv6_of_entry e.1 e.2 = none ∨ ipv6_of_entry e.1 e.2 = some (a, n))
    (hex : ∃ e ∈ dict, ipv6_of_entry e.1 e.2 = some (a, n)) :
    last_ipv6 dict acc = (some a, n) := by
  induction dict generalizing acc with
  | nil => simp at hex
  | cons e rest ih =>
    simp only [last_ipv6]
    have hrest : ∀ x ∈ rest, ipv6_of_entry x.1 x.2 = none ∨ ipv6_of_entry x.1 x.2 = some (a, n) :=
      fun x hx => hall x (List.mem_cons_of_mem _ hx)
    by_cases hr : ∃ x ∈ rest, ipv6_of_entry x.1 x.2 = some (a, n)
    · exact ih _ hrest hr
    · have hnone : ∀ x ∈ rest, ipv6_of_entry x.1 x.2 = none := by
        intro x hx
        rcases hrest x hx with h | h
        · exact h
        · exact absurd ⟨x, hx, h⟩ hr
      rw [last_ipv6_of_none rest _ hnone]
      obtain ⟨x, hx, hk⟩ := hex
      rcases List.mem_cons.mp hx with rfl | hx
      · rw [hk]
      · exact absurd ⟨x, hx, hk⟩ hr

theorem last_ipv6_ne_none (dict : List (CStr × CStr)) (acc : Option CStr × Nat)
    (hex : ∃ e ∈ dict, ipv6_of_entry e.1 e.2 ≠ none) : (last_ipv6 dict acc).1 ≠ none := by
  induction dict generalizing acc with
  | nil => simp at hex
  | cons e rest ih =>
    simp only [last_ipv6]
    by_cases hr : ∃ x ∈ rest, ipv6_of_entry x.1 x.2 ≠ none
    · exact ih _ hr
    · have hnone : ∀ x ∈ rest, ipv6_of_entry x.1 x.2 = none := by
        intro x hx
        by_contra hne
        exact hr ⟨x, hx, hne⟩
      rw [last_ipv6_of_none rest _ hnone]
      obtain ⟨x, hx, hk⟩ := hex
      rcases List.mem_cons.mp hx with rfl | hx
      · cases hv : ipv6_of_entry x.1 x.2 with
        | none => exact absurd hv hk
        | some r => simp
      · exact absurd (hnone x hx) hk

theorem ipv6_of_entry_ne_none_iff (key value : CStr) :
    ipv6_of_entry key value ≠ none ↔
      (key = "INTERNAL_IP6_ADDRESS".toList ∨
        (key = "INTERNAL_IP6_NETMASK".toList ∧ '/' ∈ value)) := by
  unfold ipv6_of_entry
  by_cases h6 : key = "INTERNAL_IP6_ADDRESS".toList
  · rw [if_pos h6]
    exact ⟨fun _ => Or.inl h6, fun _ => Option.some_ne_none _⟩
  · rw [if_neg h6]
    by_cases hn : key = "INTERNAL_IP6_NETMASK".toList
    · rw [if_pos hn]
      cases hs : strchr value '/' with
      | none =>
        have hnot := (strchr_eq_none_iff value '/').mp hs
        constructor
        · intro hc; exact absurd rfl hc
        · rintro (hc | hc)
          · exact absurd hc h6
          · exact absurd hc.2 hnot
      | some sep =>
        have hin : '/' ∈ value := by
          by_contra hc
          rw [(strchr_eq_none_iff value '/').mpr hc] at hs
          cases hs
        exact ⟨fun _ => Or.inr ⟨hn, hin⟩, fun _ => Option.some_ne_none _⟩
    · rw [if_neg hn]
      constructor
      · intro hc; exact absurd rfl hc
      · rintro (hc | hc)
        · exact absurd hc h6
        · exact absurd hc.1 hn

/-! ## Properties of `oc_notify` -/

theorem oc_notify_of_v4 (provider : vpn_provider) (dict : List (CStr × CStr)) (a : CStr)
    (h4 : (oc_notify_loop dict (oc_notify_locals provider) provider).1.addressv4 = some a) :
    oc_notify true ⟨"connect".toList, dict⟩ (some provider)
      = (vpn_state.VPN_STATE_CONNECT,
          some { (oc_notify_loop dict (oc_notify_locals provider) provider).2 with
            ipaddress := some
              { family := sa_family.AF_INET, address := some a,
                netmask := (oc_notify_loop dict (oc_notify_locals provider) provider).1.netmask,
                prefixlen := 0,
                gateway := (oc_notify_loop dict (oc_notify_locals provider) provider).1.gateway },
            domain := (oc_notify_loop dict (oc_notify_locals provider) provider).1.domain }) := by
  simp only [oc_notify, ne_eq, not_true_eq_false, if_false, h4, reduceCtorEq,
    connman_ipaddress_alloc, if_true, vpn_provider_set_domain, vpn_provider_set_ipaddress,
    connman_ipaddress_set_ipv4, not_false_eq_true]

theorem oc_notify_of_v6 (provider : vpn_provider) (dict : List (CStr × CStr)) (a : CStr)
    (h4 : (oc_notify_loop dict (oc_notify_locals provider) provider).1.addressv4 = none)
    (h6 : (oc_notify_loop dict (oc_notify_locals provider) provider).1.addressv6 = some a) :
    oc_notify true ⟨"connect".toList, dict⟩ (some provider)
      = (vpn_state.VPN_STATE_CONNECT,
          some { (oc_notify_loop dict (oc_notify_locals provider) provider).2 with
            ipaddress := some
              { family := sa_family.AF_INET6, address := some a, netmask := none,
                prefixlen :=
                  (oc_notify_loop dict (oc_notify_locals provider) provider).1.prefix_len,
                gateway := (oc_notify_loop dict (oc_notify_locals provider) provider).1.gateway },
            domain := (oc_notify_loop dict (oc_notify_locals provider) provider).1.domain }) := by
  simp only [oc_notify, ne_eq, not_true_eq_false, if_false, h4, h6, reduceCtorEq,
    connman_ipaddress_alloc, if_true, vpn_provider_set_domain, vpn_provider_set_ipaddress,
    connman_ipaddress_set_ipv6, not_false_eq_true]

theorem oc_notify_of_none (provider : vpn_provider) (dict : List (CStr × CStr))
    (alloc_ok : Bool)
    (h4 : (oc_notify_loop dict (oc_notify_locals provider) provider).1.addressv4 = none)
    (h6 : (oc_notify_loop dict (oc_notify_locals provider) provider).1.addressv6 = none) :
    oc_notify alloc_ok ⟨"connect".toList, dict⟩ (some provider)
      = (vpn_state.VPN_STATE_FAILURE,
          some (oc_notify_loop dict (oc_notify_locals provider) provider).2) := by
  simp only [oc_notify, ne_eq, not_true_eq_false, if_false, h4, h6]

theorem loop_addressv6 (dict : List (CStr × CStr)) (l : notify_locals)
    (provider : vpn_provider) :
    (oc_notify_loop dict l provider).1.addressv6 =
      (last_ipv6 dict (l.addressv6, l.prefix_len)).1 := by
  rw [← loop_ipv6 dict l provider]

theorem loop_prefix_len (dict : List (CStr × CStr)) (l : notify_locals)
    (provider : vpn_provider) :
    (oc_notify_loop dict l provider).1.prefix_len =
      (last_ipv6 dict (l.addressv6, l.prefix_len)).2 := by
  rw [← loop_ipv6 dict l provider]

theorem addressv4_of_present (provider : vpn_provider) (dict : List (CStr × CStr))
    (h : ∃ e ∈ dict, e.1 = "INTERNAL_IP4_ADDRESS".toList) :
    ∃ a, (oc_notify_loop dict (oc_notify_locals provider) provider).1.addressv4 = some a := by
  have hne := last_value_ne_none _ dict (oc_notify_locals provider).addressv4 h
  rw [← loop_addressv4 dict _ provider] at hne
  exact Option.ne_none_iff_exists'.mp hne

theorem addressv4_of_absent (provider : vpn_provider) (dict : List (CStr × CStr))
    (h : ∀ e ∈ dict, e.1 ≠ "INTERNAL_IP4_ADDRESS".toList) :
    (oc_notify_loop dict (oc_notify_locals provider) provider).1.addressv4 = none := by
  rw [loop_addressv4, last_value_of_absent _ dict _ h]; rfl

theorem addressv6_of_derived (provider : vpn_provider) (dict : List (CStr × CStr))
    (h : ∃ e ∈ dict, e.1 = "INTERNAL_IP6_ADDRESS".toList ∨
      (e.1 = "INTERNAL_IP6_NETMASK".toList ∧ '/' ∈ e.2)) :
    ∃ a, (oc_notify_loop dict (oc_notify_locals provider) provider).1.addressv6 = some a := by
  have hne : (oc_notify_loop dict (oc_notify_locals provider) provider).1.addressv6 ≠ none := by
    rw [loop_addressv6]
    apply last_ipv6_ne_none
    obtain ⟨e, he, hk⟩ := h
    exact ⟨e, he, (ipv6_of_entry_ne_none_iff e.1 e.2).mpr hk⟩
  exact Option.ne_none_iff_exists'.mp hne

theorem addressv6_of_not_derived (provider : vpn_provider) (dict : List (CStr × CStr))
    (h : ∀ e ∈ dict, e.1 ≠ "INTERNAL_IP6_ADDRESS".toList ∧
      (e.1 = "INTERNAL_IP6_NETMASK".toList → '/' ∉ e.2)) :
    (oc_notify_loop dict (oc_notify_locals provider) provider).1.addressv6 = none := by
  rw [loop_addressv6, last_ipv6_of_none]
  · rfl
  · intro e he
    by_contra hc
    rcases (ipv6_of_entry_ne_none_iff e.1 e.2).mp hc with hk | hk
    · exact (h e he).1 hk
    · exact (h e he).2 hk.1 hk.2

/-- C1. Family selection of `oc_notify` with reason "connect", on a present provider and
with the allocation of the address block succeeding.  If the key `INTERNAL_IP4_ADDRESS`
is present, the call reports CONNECT and builds an IPv4 block (and no IPv6 block).
Otherwise, if some entry derives an IPv6 address (key `INTERNAL_IP6_ADDRESS`, or key
`INTERNAL_IP6_NETMASK` with a value containing '/'), the call reports CONNECT and builds an
IPv6 block (and no IPv4 block).  Otherwise (no address key apart from
`INTERNAL_IP6_NETMASK` entries without '/', which are dropped) the call reports FAILURE. -/
theorem oc_notify_family_selection (provider : vpn_provider) (dict : List (CStr × CStr)) :
    ((∃ e ∈ dict, e.1 = "INTERNAL_IP4_ADDRESS".toList) →
      ∃ p, oc_notify true ⟨"connect".toList, dict⟩ (some provider)
          = (vpn_state.VPN_STATE_CONNECT, some p) ∧
        (v4_block p).isSome = true ∧ v6_block p = none) ∧
    ((∀ e ∈ dict, e.1 ≠ "INTERNAL_IP4_ADDRESS".toList) →
      (∃ e ∈ dict, e.1 = "INTERNAL_IP6_ADDRESS".toList ∨
        (e.1 = "INTERNAL_IP6_NETMASK".toList ∧ '/' ∈ e.2)) →
      ∃ p, oc_notify true ⟨"connect".toList, dict⟩ (some provider)
          = (vpn_state.VPN_STATE_CONNECT, some p) ∧
        (v6_block p).isSome = true ∧ v4_block p = none) ∧
    ((∀ e ∈ dict, e.1 ≠ "INTERNAL_IP4_ADDRESS".toList) →
      (∀ e ∈ dict, e.1 ≠ "INTERNAL_IP6_ADDRESS".toList ∧
        (e.1 = "INTERNAL_IP6_NETMASK".toList → '/' ∉ e.2)) →
      ∀ alloc_ok, (oc_notify alloc_ok ⟨"connect".toList, dict⟩ (some provider)).1
          = vpn_state.VPN_STATE_FAILURE) := by
  refine ⟨?_, ?_, ?_⟩
  · intro h
    obtain ⟨a, ha⟩ := addressv4_of_present provider dict h
    exact ⟨_, oc_notify_of_v4 provider dict a ha, by simp [v4_block], by simp [v6_block]⟩
  · intro h4 h6
    obtain ⟨a, ha⟩ := addressv6_of_derived provider dict h6
    exact ⟨_, oc_notify_of_v6 provider dict a (addressv4_of_absent provider dict h4) ha,
      by simp [v6_block], by simp [v4_block]⟩
  · intro h4 h6 alloc_ok
    rw [oc_notify_of_none provider dict alloc_ok (addressv4_of_absent provider dict h4)
      (addressv6_of_not_derived provider dict h6)]

/-- Instances of C1: an IPv4 address key gives an IPv4 block, an `INTERNAL_IP6_NETMASK` with
a '/' alone gives an IPv6 block, and an `INTERNAL_IP6_NETMASK` without '/' alone fails. -/
theorem oc_notify_family_selection_witness :
    (∃ p, oc_notify true
        ⟨"connect".toList, [("INTERNAL_IP4_ADDRESS".toList, "10.0.0.5".toList)]⟩
        (some example_provider) = (vpn_state.VPN_STATE_CONNECT, some p) ∧
      (v4_block p).isSome = true ∧ v6_block p = none) ∧
    (∃ p, oc_notify true
        ⟨"connect".toList, [("INTERNAL_IP6_NETMASK".toList, "fd00::5/64".toList)]⟩
        (some example_provider) = (vpn_state.VPN_STATE_CONNECT, some p) ∧
      (v6_block p).isSome = true ∧ v4_block p = none) ∧
    (oc_notify true
        ⟨"connect".toList, [("INTERNAL_IP6_NETMASK".toList, "fd00::5".toList)]⟩
        (some example_provider)).1 = vpn_state.VPN_STATE_FAILURE :=
  ⟨(oc_notify_family_selection example_provider
      [("INTERNAL_IP4_ADDRESS".toList, "10.0.0.5".toList)]).1 (by decide),
   (oc_notify_family_selection example_provider
      [("INTERNAL_IP6_NETMASK".toList, "fd00::5/64".toList)]).2.1 (by decide) (by decide),
   (oc_notify_family_selection example_provider
      [("INTERNAL_IP6_NETMASK".toList, "fd00::5".toList)]).2.2 (by decide) (by decide) true⟩

theorem oc_notify_alloc_failure (provider : vpn_provider) (dict : List (CStr × CStr)) :
    (oc_notify false ⟨"connect".toList, dict⟩ (some provider)).1
      = vpn_state.VPN_STATE_FAILURE := by
  simp only [oc_notify, ne_eq, not_true_eq_false, if_false, connman_ipaddress_alloc,
    Bool.false_eq_true, ite_self]

/-- C2, as stated, fails on the code: the dictionary holds the three entries and has unique
keys, yet when `connman_ipaddress_alloc` returns `NULL` the call reports FAILURE and the
provider is given no IPv4 block. -/
theorem oc_notify_ipv4_configuration_counterexample :
    (oc_notify false
        ⟨"connect".toList,
          [("VPNGATEWAY".toList, "10.0.0.1".toList),
           ("INTERNAL_IP4_NETMASK".toList, "255.255.255.0".toList),
           ("INTERNAL_IP4_ADDRESS".toList, "10.0.0.5".toList)]⟩
        (some example_provider)).1 = vpn_state.VPN_STATE_FAILURE ∧
    (oc_notify false
        ⟨"connect".toList,
          [("VPNGATEWAY".toList, "10.0.0.1".toList),
           ("INTERNAL_IP4_NETMASK".toList, "255.255.255.0".toList),
           ("INTERNAL_IP4_ADDRESS".toList, "10.0.0.5".toList)]⟩
        (some example_provider)).2.bind v4_block = none := by
  decide

/-- C2, amended. For every dictionary with unique keys that contains
`INTERNAL_IP4_ADDRESS = a`, `INTERNAL_IP4_NETMASK = m` and `VPNGATEWAY = g`, whatever else
it holds: when the address block is allocated, `oc_notify` with reason "connect" reports
CONNECT and gives the provider an IPv4 block with address `a`, netmask `m` and gateway `g`,
and no IPv6 block; when `connman_ipaddress_alloc` returns `NULL`, it reports FAILURE. -/
theorem oc_notify_ipv4_configuration (provider : vpn_provider) (dict : List (CStr × CStr))
    (a m g : CStr) (hnd : (dict.map Prod.fst).Nodup)
    (ha : ("INTERNAL_IP4_ADDRESS".toList, a) ∈ dict)
    (hm : ("INTERNAL_IP4_NETMASK".toList, m) ∈ dict)
    (hg : ("VPNGATEWAY".toList, g) ∈ dict) :
    (∃ p, oc_notify true ⟨"connect".toList, dict⟩ (some provider)
        = (vpn_state.VPN_STATE_CONNECT, some p) ∧
      v4_block p = some (some a, some m, some g) ∧ v6_block p = none) ∧
    (oc_notify false ⟨"connect".toList, dict⟩ (some provider)).1
      = vpn_state.VPN_STATE_FAILURE := by
  have e4 : (oc_notify_loop dict (oc_notify_locals provider) provider).1.addressv4 = some a := by
    rw [loop_addressv4]
    exact last_value_of_unique _ a dict _ ha (nodup_keys_unique _ a dict hnd ha)
  have em : (oc_notify_loop dict (oc_notify_locals provider) provider).1.netmask = some m := by
    rw [loop_netmask]
    exact last_value_of_unique _ m dict _ hm (nodup_keys_unique _ m dict hnd hm)
  have eg : (oc_notify_loop dict (oc_notify_locals provider) provider).1.gateway = some g := by
    rw [loop_gateway]
    exact last_value_of_unique _ g dict _ hg (nodup_keys_unique _ g dict hnd hg)
  refine ⟨⟨_, oc_notify_of_v4 provider dict a e4, ?_, ?_⟩, oc_notify_alloc_failure provider dict⟩
  · simp [v4_block, em, eg]
  · simp [v6_block]

/-- Instance of amended C2: address 10.0.0.5, netmask 255.255.255.0, gateway 10.0.0.1, next
to a DNS entry and an IPv6 address entry. -/
theorem oc_notify_ipv4_configuration_witness :
    (∃ p, oc_notify true
        ⟨"connect".toList,
          [("INTERNAL_IP4_DNS".toList, "10.0.0.2".toList),
           ("VPNGATEWAY".toList, "10.0.0.1".toList),
           ("INTERNAL_IP6_ADDRESS".toList, "fd00::5".toList),
           ("INTERNAL_IP4_NETMASK".toList, "255.255.255.0".toList),
           ("INTERNAL_IP4_ADDRESS".toList, "10.0.0.5".toList)]⟩
        (some example_provider) = (vpn_state.VPN_STATE_CONNECT, some p) ∧
      v4_block p
        = some (some "10.0.0.5".toList, some "255.255.255.0".toList, some "10.0.0.1".toList) ∧
      v6_block p = none) ∧
    (oc_notify false
        ⟨"connect".toList,
          [("INTERNAL_IP4_DNS".toList, "10.0.0.2".toList),
           ("VPNGATEWAY".toList, "10.0.0.1".toList),
           ("INTERNAL_IP6_ADDRESS".toList, "fd00::5".toList),
           ("INTERNAL_IP4_NETMASK".toList, "255.255.255.0".toList),
           ("INTERNAL_IP4_ADDRESS".toList, "10.0.0.5".toList)]⟩
        (some example_provider)).1 = vpn_state.VPN_STATE_FAILURE :=
  oc_notify_ipv4_configuration example_provider
    [("INTERNAL_IP4_DNS".toList, "10.0.0.2".toList),
     ("VPNGATEWAY".toList, "10.0.0.1".toList),
     ("INTERNAL_IP6_ADDRESS".toList, "fd00::5".toList),
     ("INTERNAL_IP4_NETMASK".toList, "255.255.255.0".toList),
     ("INTERNAL_IP4_ADDRESS".toList, "10.0.0.5".toList)]
    "10.0.0.5".toList "255.255.255.0".toList "10.0.0.1".toList
    (by decide) (by decide) (by decide) (by decide)

theorem ipv6_of_netmask_entry (A P : CStr) (hA : '/' ∉ A) :
    ipv6_of_entry "INTERNAL_IP6_NETMASK".toList (A ++ '/' :: P)
      = some (A.take (A.length % 256), to_uchar (strtol P)) := by
  have hk : ¬ "INTERNAL_IP6_NETMASK".toList = "INTERNAL_IP6_ADDRESS".toList := by decide
  unfold ipv6_of_entry
  rw [if_neg hk, if_pos rfl, strchr_append A P '/' hA]
  simp only [g_strndup]
  have hdrop : List.drop (A.length + 1) (A ++ '/' :: P) = P := by
    rw [List.drop_append_eq_append_drop]
    simp
  have htake : List.take (A.length % 256) (A ++ '/' :: P) = List.take (A.length % 256) A := by
    rw [List.take_append_of_le_length (Nat.mod_le _ _)]
  rw [hdrop, htake]

theorem oc_notify_single_netmask (provider : vpn_provider) (A P : CStr) (hA : '/' ∉ A) :
    (oc_notify true ⟨"connect".toList, [("INTERNAL_IP6_NETMASK".toList, A ++ '/' :: P)]⟩
      (some provider)).2.bind v6_block
      = some (some (A.take (A.length % 256)), to_uchar (strtol P), none) := by
  have h4 : (oc_notify_loop [("INTERNAL_IP6_NETMASK".toList, A ++ '/' :: P)]
      (oc_notify_locals provider) provider).1.addressv4 = none := by
    rw [loop_addressv4]; rfl
  have hg : (oc_notify_loop [("INTERNAL_IP6_NETMASK".toList, A ++ '/' :: P)]
      (oc_notify_locals provider) provider).1.gateway = none := by
    rw [loop_gateway]; rfl
  have h6 := loop_ipv6 [("INTERNAL_IP6_NETMASK".toList, A ++ '/' :: P)]
      (oc_notify_locals provider) provider
  simp only [last_ipv6, ipv6_of_netmask_entry A P hA] at h6
  have ha := congrArg Prod.fst h6
  have hn := congrArg Prod.snd h6
  simp only at ha hn
  rw [oc_notify_of_v6 _ _ _ h4 ha]
  simp only [Option.bind, v6_block, if_true, hn, hg]

/-- C3, as stated, fails on the code: the length of the address part and the prefix length
are both kept in an `unsigned char`.  With an address part `A` of 256 bytes the derived
address is the empty string, not `A`; with `fd00::5/300` the derived prefix is 44.  And with
`fd00::5/64`, when `connman_ipaddress_alloc` returns `NULL` the call reports FAILURE. -/
theorem oc_notify_ipv6_netmask_split_counterexample :
    '/' ∉ List.replicate 256 'a' ∧
    (oc_notify true
      ⟨"connect".toList,
        [("INTERNAL_IP6_NETMASK".toList, List.replicate 256 'a' ++ '/' :: (Nat.repr 64).toList)]⟩
      (some example_provider)).2.bind v6_block = some (some [], 64, none) ∧
    (oc_notify true
      ⟨"connect".toList,
        [("INTERNAL_IP6_NETMASK".toList, "fd00::5".toList ++ '/' :: (Nat.repr 300).toList)]⟩
      (some example_provider)).2.bind v6_block = some (some "fd00::5".toList, 44, none) ∧
    (oc_notify false
      ⟨"connect".toList,
        [("INTERNAL_IP6_NETMASK".toList, "fd00::5".toList ++ '/' :: (Nat.repr 64).toList)]⟩
      (some example_provider)).1 = vpn_state.VPN_STATE_FAILURE := by
  have hA : '/' ∉ List.replicate 256 'a' :=
    fun h => absurd (List.eq_of_mem_replicate h) (by decide)
  refine ⟨hA, ?_, by decide, by decide⟩
  rw [oc_notify_single_netmask example_provider _ _ hA, List.length_replicate]
  have h0 : 256 % 256 = 0 := rfl
  have h64 : to_uchar (strtol (Nat.repr 64).toList) = 64 := by decide
  rw [h0, List.take_zero, h64]

/-- C3, amended. For every dictionary with no `INTERNAL_IP4_ADDRESS` and no
`INTERNAL_IP6_ADDRESS` key whose `INTERNAL_IP6_NETMASK` value is `A ++ "/" ++ P` (the key is
present and every entry with that key holds this value), with `A` a string of fewer than 256
bytes without '/' and `P` the decimal spelling of `n < 256`: when the address block is
allocated, `oc_notify` with reason "connect" reports CONNECT and gives the provider an IPv6
block whose address is exactly `A` and whose prefix length is `n` (and no IPv4 block); when
`connman_ipaddress_alloc` returns `NULL`, it reports FAILURE. -/
theorem oc_notify_ipv6_netmask_split (provider : vpn_provider) (dict : List (CStr × CStr))
    (A : CStr) (n : Nat)
    (h4 : ∀ e ∈ dict, e.1 ≠ "INTERNAL_IP4_ADDRESS".toList)
    (h6 : ∀ e ∈ dict, e.1 ≠ "INTERNAL_IP6_ADDRESS".toList)
    (hmem : ("INTERNAL_IP6_NETMASK".toList, A ++ '/' :: (Nat.repr n).toList) ∈ dict)
    (huniq : ∀ e ∈ dict, e.1 = "INTERNAL_IP6_NETMASK".toList →
      e.2 = A ++ '/' :: (Nat.repr n).toList)
    (hA : '/' ∉ A) (hlen : A.length < 256) (hn : n < 256) :
    (∃ p g, oc_notify true ⟨"connect".toList, dict⟩ (some provider)
        = (vpn_state.VPN_STATE_CONNECT, some p) ∧
      v6_block p = some (some A, n, g) ∧ v4_block p = none) ∧
    (oc_notify false ⟨"connect".toList, dict⟩ (some provider)).1
      = vpn_state.VPN_STATE_FAILURE := by
  have hval : ipv6_of_entry "INTERNAL_IP6_NETMASK".toList (A ++ '/' :: (Nat.repr n).toList)
      = some (A, n) := by
    rw [ipv6_of_netmask_entry A _ hA, Nat.mod_eq_of_lt hlen, List.take_length,
      strtol_repr n (by unfold LONG_MAX; omega)]
    simp only [to_uchar]
    congr 2
    omega
  have e4 : (oc_notify_loop dict (oc_notify_locals provider) provider).1.addressv4 = none := by
    rw [loop_addressv4, last_value_of_absent _ dict _ h4]; rfl
  have hl : last_ipv6 dict ((oc_notify_locals provider).addressv6,
      (oc_notify_locals provider).prefix_len) = (some A, n) := by
    apply last_ipv6_of_const
    · intro e he
      by_cases hk : e.1 = "INTERNAL_IP6_NETMASK".toList
      · right
        rw [hk, huniq e he hk, hval]
      · left
        by_contra hc
        rcases (ipv6_of_entry_ne_none_iff e.1 e.2).mp hc with hc | hc
        · exact h6 e he hc
        · exact hk hc.1
    · exact ⟨_, hmem, hval⟩
  have e6 : (oc_notify_loop dict (oc_notify_locals provider) provider).1.addressv6 = some A := by
    rw [loop_addressv6, hl]
  have ep : (oc_notify_loop dict (oc_notify_locals provider) provider).1.prefix_len = n := by
    rw [loop_prefix_len, hl]
  refine ⟨⟨_, (oc_notify_loop dict (oc_notify_locals provider) provider).1.gateway,
    oc_notify_of_v6 provider dict A e4 e6, ?_, ?_⟩, oc_notify_alloc_failure provider dict⟩
  · simp only [v6_block, if_true, ep]
  · simp [v4_block]

/-- Instance of amended C3: `fd00::5/64` gives address `fd00::5` and prefix 64 when the block
is allocated, and FAILURE when it is not. -/
theorem oc_notify_ipv6_netmask_split_witness :
    (∃ p g, oc_notify true
        ⟨"connect".toList,
          [("INTERNAL_IP6_NETMASK".toList, "fd00::5".toList ++ '/' :: (Nat.repr 64).toList)]⟩
        (some example_provider) = (vpn_state.VPN_STATE_CONNECT, some p) ∧
      v6_block p = some (some "fd00::5".toList, 64, g) ∧ v4_block p = none) ∧
    (oc_notify false
        ⟨"connect".toList,
          [("INTERNAL_IP6_NETMASK".toList, "fd00::5".toList ++ '/' :: (Nat.repr 64).toList)]⟩
        (some example_provider)).1 = vpn_state.VPN_STATE_FAILURE :=
  oc_notify_ipv6_netmask_split example_provider
    [("INTERNAL_IP6_NETMASK".toList, "fd00::5".toList ++ '/' :: (Nat.repr 64).toList)]
    "fd00::5".toList 64 (by decide) (by decide) (by decide) (by decide) (by decide)
    (by decide) (by decide)

/-- C4, as stated, fails on the code: a dictionary with both an IPv4 and an IPv6 address is
extracted successfully, and only the IPv4 block is populated. -/
theorem oc_notify_one_block_counterexample :
    (oc_notify true
        ⟨"connect".toList,
          [("INTERNAL_IP4_ADDRESS".toList, "10.0.0.5".toList),
           ("INTERNAL_IP6_ADDRESS".toList, "fd00::5".toList)]⟩
        (some example_provider)).1 = vpn_state.VPN_STATE_CONNECT ∧
    (oc_notify true
        ⟨"connect".toList,
          [("INTERNAL_IP4_ADDRESS".toList, "10.0.0.5".toList),
           ("INTERNAL_IP6_ADDRESS".toList, "fd00::5".toList)]⟩
        (some example_provider)).2.bind v4_block
      = some (some "10.0.0.5".toList, none, none) ∧
    (oc_notify true
        ⟨"connect".toList,
          [("INTERNAL_IP4_ADDRESS".toList, "10.0.0.5".toList),
           ("INTERNAL_IP6_ADDRESS".toList, "fd00::5".toList)]⟩
        (some example_provider)).2.bind v6_block = none := by
  decide

/-- C4, amended. For every dictionary on which `oc_notify` with reason "connect" succeeds,
exactly one of the IPv4 block and the IPv6 block is populated: the IPv4 block alone when the
key `INTERNAL_IP4_ADDRESS` is present (also when an IPv6 address is present too), the IPv6
block alone otherwise. -/
theorem oc_notify_one_block (alloc_ok : Bool) (provider p : vpn_provider)
    (dict : List (CStr × CStr))
    (hok : oc_notify alloc_ok ⟨"connect".toList, dict⟩ (some provider)
      = (vpn_state.VPN_STATE_CONNECT, some p)) :
    ((∃ e ∈ dict, e.1 = "INTERNAL_IP4_ADDRESS".toList) ∧
        (v4_block p).isSome = true ∧ v6_block p = none) ∨
    ((∀ e ∈ dict, e.1 ≠ "INTERNAL_IP4_ADDRESS".toList) ∧
        (v6_block p).isSome = true ∧ v4_block p = none) := by
  cases alloc_ok with
  | false =>
    have hf := oc_notify_alloc_failure provider dict
    rw [hok] at hf
    cases hf
  | true =>
    by_cases h4 : ∃ e ∈ dict, e.1 = "INTERNAL_IP4_ADDRESS".toList
    · obtain ⟨a, ha⟩ := addressv4_of_present provider dict h4
      rw [oc_notify_of_v4 provider dict a ha] at hok
      cases hok
      exact Or.inl ⟨h4, by simp [v4_block], by simp [v6_block]⟩
    · have h4' : ∀ e ∈ dict, e.1 ≠ "INTERNAL_IP4_ADDRESS".toList :=
        fun e he hk => h4 ⟨e, he, hk⟩
      have e4 := addressv4_of_absent provider dict h4'
      by_cases h6 : ∃ e ∈ dict, e.1 = "INTERNAL_IP6_ADDRESS".toList ∨
          (e.1 = "INTERNAL_IP6_NETMASK".toList ∧ '/' ∈ e.2)
      · obtain ⟨a, ha⟩ := addressv6_of_derived provider dict h6
        rw [oc_notify_of_v6 provider dict a e4 ha] at hok
        cases hok
        exact Or.inr ⟨h4', by simp [v6_block], by simp [v4_block]⟩
      · have h6' : ∀ e ∈ dict, e.1 ≠ "INTERNAL_IP6_ADDRESS".toList ∧
            (e.1 = "INTERNAL_IP6_NETMASK".toList → '/' ∉ e.2) :=
          fun e he => ⟨fun hk => h6 ⟨e, he, Or.inl hk⟩,
            fun hk hs => h6 ⟨e, he, Or.inr ⟨hk, hs⟩⟩⟩
        rw [oc_notify_of_none provider dict true e4
          (addressv6_of_not_derived provider dict h6')] at hok
        cases hok

/-- Instance of amended C4: with both an IPv4 and an IPv6 address in the dictionary the
extraction succeeds, and the IPv4 block alone is populated. -/
theorem oc_notify_one_block_witness :
    ∃ p, oc_notify true
        ⟨"connect".toList,
          [("INTERNAL_IP4_ADDRESS".toList, "10.0.0.5".toList),
           ("INTERNAL_IP6_ADDRESS".toList, "fd00::5".toList)]⟩
        (some example_provider) = (vpn_state.VPN_STATE_CONNECT, some p) ∧
      (((∃ e ∈ [("INTERNAL_IP4_ADDRESS".toList, "10.0.0.5".toList),
               ("INTERNAL_IP6_ADDRESS".toList, "fd00::5".toList)],
          e.1 = "INTERNAL_IP4_ADDRESS".toList) ∧
        (v4_block p).isSome = true ∧ v6_block p = none) ∨
      ((∀ e ∈ [("INTERNAL_IP4_ADDRESS".toList, "10.0.0.5".toList),
               ("INTERNAL_IP6_ADDRESS".toList, "fd00::5".toList)],
          e.1 ≠ "INTERNAL_IP4_ADDRESS".toList) ∧
        (v6_block p).isSome = true ∧ v4_block p = none)) :=
  have h : oc_notify true
      ⟨"connect".toList,
        [("INTERNAL_IP4_ADDRESS".toList, "10.0.0.5".toList),
         ("INTERNAL_IP6_ADDRESS".toList, "fd00::5".toList)]⟩
      (some example_provider)
      = (vpn_state.VPN_STATE_CONNECT,
          some { example_provider with
            ipaddress := some
              { family := sa_family.AF_INET, address := some "10.0.0.5".toList,
                netmask := none, prefixlen := 0, gateway := none } }) := by decide
  ⟨_, h, oc_notify_one_block true example_provider _ _ h⟩

theorem kv_get_of_unique (key value : CStr) (dict : kv_store) (hmem : (key, value) ∈ dict)
    (huniq : ∀ e ∈ dict, e.1 = key → e.2 = value) : kv_get dict key = some value := by
  induction dict with
  | nil => simp at hmem
  | cons e rest ih =>
    obtain ⟨k, v⟩ := e
    rw [kv_get_cons]
    by_cases hk : k = key
    · rw [if_pos hk]
      exact congrArg some (huniq (k, v) (List.mem_cons_self _ _) hk)
    · rw [if_neg hk]
      apply ih
      · rcases List.mem_cons.mp hmem with h | h
        · exact absurd (congrArg Prod.fst h).symm hk
        · exact h
      · exact fun x hx => huniq x (List.mem_cons_of_mem _ hx)

theorem oc_notify_connect_domain (alloc_ok : Bool) (provider p : vpn_provider)
    (dict : List (CStr × CStr))
    (hok : oc_notify alloc_ok ⟨"connect".toList, dict⟩ (some provider)
      = (vpn_state.VPN_STATE_CONNECT, some p)) :
    p.domain = (oc_notify_loop dict (oc_notify_locals provider) provider).1.domain := by
  cases alloc_ok with
  | false =>
    have hf := oc_notify_alloc_failure provider dict
    rw [hok] at hf
    cases hf
  | true =>
    cases h4 : (oc_notify_loop dict (oc_notify_locals provider) provider).1.addressv4 with
    | some a =>
      rw [oc_notify_of_v4 provider dict a h4] at hok
      cases hok
      rfl
    | none =>
      cases h6 : (oc_notify_loop dict (oc_notify_locals provider) provider).1.addressv6 with
      | some a =>
        rw [oc_notify_of_v6 provider dict a h4 h6] at hok
        cases hok
        rfl
      | none =>
        rw [oc_notify_of_none provider dict true h4 h6] at hok
        cases hok

/-- C5, as stated, fails on the code: a provider whose `VPN.Domain` is the empty string has
an empty existing domain, yet `CISCO_DEF_DOMAIN = example.com` is not used; the domain set
on the provider is the empty string. -/
theorem oc_notify_domain_precedence_counterexample :
    vpn_provider_get_string { example_provider with domain := some [] } "VPN.Domain".toList
      = some [] ∧
    (oc_notify true
        ⟨"connect".toList,
          [("INTERNAL_IP4_ADDRESS".toList, "10.0.0.5".toList),
           ("CISCO_DEF_DOMAIN".toList, "example.com".toList)]⟩
        (some { example_provider with domain := some [] })).1
      = vpn_state.VPN_STATE_CONNECT ∧
    ((oc_notify true
        ⟨"connect".toList,
          [("INTERNAL_IP4_ADDRESS".toList, "10.0.0.5".toList),
           ("CISCO_DEF_DOMAIN".toList, "example.com".toList)]⟩
        (some { example_provider with domain := some [] })).2.bind (·.domain))
      = some [] := by
  decide

/-- C5, amended. For every successful extraction by `oc_notify`: if the provider already
has a domain `d` set (`VPN.Domain` is not `NULL`; `d` may be the empty string), the domain
set on the provider is `d`, whatever `CISCO_DEF_DOMAIN` says; if the provider has no domain
set (`VPN.Domain` is `NULL`) and the dictionary maps `CISCO_DEF_DOMAIN` to `v` (the key is
present and every entry with that key holds `v`), the domain set on the provider is `v`. -/
theorem oc_notify_domain_precedence (alloc_ok : Bool) (provider p : vpn_provider)
    (dict : List (CStr × CStr))
    (hok : oc_notify alloc_ok ⟨"connect".toList, dict⟩ (some provider)
      = (vpn_state.VPN_STATE_CONNECT, some p)) :
    (∀ d, vpn_provider_get_string provider "VPN.Domain".toList = some d →
      p.domain = some d) ∧
    (vpn_provider_get_string provider "VPN.Domain".toList = none →
      ∀ v, ("CISCO_DEF_DOMAIN".toList, v) ∈ dict →
        (∀ e ∈ dict, e.1 = "CISCO_DEF_DOMAIN".toList → e.2 = v) → p.domain = some v) := by
  have hd := oc_notify_connect_domain alloc_ok provider p dict hok
  constructor
  · intro d hex
    rw [hd]
    exact loop_domain_of_some dict _ provider d hex
  · intro hex v hmem huniq
    rw [hd, loop_domain_of_none dict _ provider hex]
    exact kv_get_of_unique _ v dict hmem huniq

/-- Instance of amended C5: with no domain on the provider, `CISCO_DEF_DOMAIN = example.com`
gives the domain `example.com`; with the existing domain `corp.net` the domain stays
`corp.net`. -/
theorem oc_notify_domain_precedence_witness :
    (oc_notify true
        ⟨"connect".toList,
          [("INTERNAL_IP4_ADDRESS".toList, "10.0.0.5".toList),
           ("CISCO_DEF_DOMAIN".toList, "example.com".toList)]⟩
        (some example_provider)).2.bind (·.domain) = some "example.com".toList ∧
    (oc_notify true
        ⟨"connect".toList,
          [("INTERNAL_IP4_ADDRESS".toList, "10.0.0.5".toList),
           ("CISCO_DEF_DOMAIN".toList, "example.com".toList)]⟩
        (some { example_provider with domain := some "corp.net".toList })).2.bind (·.domain)
      = some "corp.net".toList := by
  constructor
  · have h : oc_notify true
        ⟨"connect".toList,
          [("INTERNAL_IP4_ADDRESS".toList, "10.0.0.5".toList),
           ("CISCO_DEF_DOMAIN".toList, "example.com".toList)]⟩
        (some example_provider)
        = (vpn_state.VPN_STATE_CONNECT,
            some { example_provider with
              ipaddress := some
                { family := sa_family.AF_INET, address := some "10.0.0.5".toList,
                  netmask := none, prefixlen := 0, gateway := none },
              domain := some "example.com".toList }) := by decide
    rw [h]
    exact (oc_notify_domain_precedence true example_provider _ _ h).2 (by decide)
      "example.com".toList (by decide) (by decide)
  · have h : oc_notify true
        ⟨"connect".toList,
          [("INTERNAL_IP4_ADDRESS".toList, "10.0.0.5".toList),
           ("CISCO_DEF_DOMAIN".toList, "example.com".toList)]⟩
        (some { example_provider with domain := some "corp.net".toList })
        = (vpn_state.VPN_STATE_CONNECT,
            some { example_provider with
              ipaddress := some
                { family := sa_family.AF_INET, address := some "10.0.0.5".toList,
                  netmask := none, prefixlen := 0, gateway := none },
              domain := some "corp.net".toList }) := by decide
    rw [h]
    exact (oc_notify_domain_precedence true _ _ _ h).1 "corp.net".toList (by decide)

/-- C6. For every reason string different from "connect" and every dictionary (the empty
one included), `oc_notify` on a present provider reports DISCONNECT, never FAILURE and never
CONNECT, and leaves the provider as it was. -/
theorem oc_notify_disconnect (alloc_ok : Bool) (reason : CStr) (dict : List (CStr × CStr))
    (provider : vpn_provider) (h : reason ≠ "connect".toList) :
    oc_notify alloc_ok ⟨reason, dict⟩ (some provider)
      = (vpn_state.VPN_STATE_DISCONNECT, some provider) := by
  simp only [oc_notify, if_pos h]

/-- Instance of C6: reason "disconnect" with the empty dictionary. -/
theorem oc_notify_disconnect_witness :
    oc_notify true ⟨"disconnect".toList, []⟩ (some example_provider)
      = (vpn_state.VPN_STATE_DISCONNECT, some example_provider) :=
  oc_notify_disconnect true "disconnect".toList [] example_provider (by decide)

/-! ## Properties of `run_connect` -/

theorem kv_get_filter_ne (s : kv_store) (k k' : CStr) (h : k' ≠ k) :
    kv_get (s.filter (fun e => e.1 ≠ k)) k' = kv_get s k' := by
  induction s with
  | nil => rfl
  | cons e rest ih =>
    obtain ⟨a, b⟩ := e
    by_cases ha : a = k
    · have hk : ¬ a = k' := fun hc => h (hc.symm.trans ha)
      rw [kv_get_cons, if_neg hk, ← ih]
      simp [List.filter_cons, ha]
    · have hf : List.filter (fun e => decide (e.1 ≠ k)) ((a, b) :: rest)
          = (a, b) :: List.filter (fun e => decide (e.1 ≠ k)) rest := by
        simp [List.filter_cons, ha]
      rw [hf, kv_get_cons, kv_get_cons, ih]

theorem kv_get_kv_set_ne (s : kv_store) (k v k' : CStr) (h : k' ≠ k) :
    kv_get (kv_set s k v) k' = kv_get s k' := by
  unfold kv_set
  rw [kv_get_cons, if_neg (Ne.symm h), kv_get_filter_ne s k k' h]

theorem get_string_set_cookie (provider : vpn_provider) (cookie key : CStr)
    (h1 : key ≠ "OpenConnect.Cookie".toList) (h2 : key ≠ "VPN.Domain".toList) :
    vpn_provider_get_string
        (vpn_provider_set_string provider "OpenConnect.Cookie".toList cookie) key
      = vpn_provider_get_string provider key := by
  have hc : ¬ "OpenConnect.Cookie".toList = "VPN.Domain".toList := by decide
  unfold vpn_provider_get_string vpn_provider_set_string
  rw [if_neg hc, if_neg h2, if_neg h2]
  exact kv_get_kv_set_ne _ _ _ _ h1

theorem write_argv (ret : Int) (task : connman_task) (buf : CStr) :
    (write ret task buf).argv = task.argv := rfl

theorem connman_task_run_argv (err : Int) (task : connman_task) :
    (connman_task_run err task).2.argv = task.argv := by
  unfold connman_task_run
  split <;> rfl

/-- C7. Launch argument vector: for every provider, task, interface name and completion
callback, when the credential is present the arguments `run_connect` appends to the task
are, in this order: `--servercert` and the pin only if `OpenConnect.ServerCert` is set,
`--cafile` and the path only if `OpenConnect.CACert` is set, `--mtu` and the value only if
`VPN.MTU` is set, then `--syslog`, `--cookie-on-stdin`, `--script`, the path of the helper
script, `--interface`, the interface name, and last the bare `Host` value; nothing else is
appended, whatever the outcome of the launch. -/
theorem run_connect_arguments (env : connect_env) (w : oc_world) (if_name cookie : CStr)
    (cb : Bool) :
    (run_connect env w if_name cb (some cookie)).2.task.argv =
      w.task.argv ++
        (match vpn_provider_get_string w.provider "OpenConnect.ServerCert".toList with
         | some pin => ["--servercert".toList, pin]
         | none => []) ++
        (match vpn_provider_get_string w.provider "OpenConnect.CACert".toList with
         | some path => ["--cafile".toList, path]
         | none => []) ++
        (match vpn_provider_get_string w.provider "VPN.MTU".toList with
         | some value => ["--mtu".toList, value]
         | none => []) ++
        ["--syslog".toList, "--cookie-on-stdin".toList, "--script".toList,
          env.SCRIPTDIR ++ "/openconnect-script".toList, "--interface".toList, if_name] ++
        (match vpn_provider_get_string w.provider "Host".toList with
         | some host => [host]
         | none => []) := by
  unfold run_connect
  simp only []
  have hargv : ∀ (c : Prop) [Decidable c] (x y : Int × vpn_provider × connman_task),
      (if c then x else y).2.2.argv = if c then x.2.2.argv else y.2.2.argv := by
    intro c _ x y; split <;> rfl
  unfold run_connect_body
  simp only [hargv, write_argv, connman_task_run_argv, ite_self]
  rw [get_string_set_cookie w.provider cookie _ (by decide) (by decide),
    get_string_set_cookie w.provider cookie _ (by decide) (by decide),
    get_string_set_cookie w.provider cookie _ (by decide) (by decide)]
  cases vpn_provider_get_string w.provider "OpenConnect.ServerCert".toList <;>
    cases vpn_provider_get_string w.provider "OpenConnect.CACert".toList <;>
    cases vpn_provider_get_string w.provider "VPN.MTU".toList <;>
    cases vpn_provider_get_string w.provider "Host".toList <;>
    simp [connman_task_add_argument]

/-- C8, as stated, fails on the code: with the empty string as credential `run_connect`
goes on, the client is spawned, the empty line is written to its standard input and the
call returns 0, which is also the status handed to the completion callback. -/
theorem run_connect_missing_credential_counterexample :
    (run_connect (example_env []) example_world "vpn0".toList true (some [])).1 = 0 ∧
    (run_connect (example_env []) example_world "vpn0".toList true (some [])).2.task.running
      = true ∧
    (run_connect (example_env []) example_world "vpn0".toList true (some [])).2.task.stdin
      = "\n".toList ∧
    (run_connect (example_env []) example_world "vpn0".toList true (some [])).2.cb_calls
      = [0] := by
  decide

/-- C8, amended. `run_connect` with no credential (`vpncookie` is `NULL`) always fails with
`-EINVAL` and never spawns a process: for every provider, task, interface name and
completion callback, the task is left as it was (no argument added, not run, nothing
written), the provider is left as it was, and the callback, when there is one, is called
once with `-EINVAL`.  (The empty string is a credential like any other.) -/
theorem run_connect_missing_credential (env : connect_env) (w : oc_world) (if_name : CStr)
    (cb : Bool) :
    (run_connect env w if_name cb none).1 = -EINVAL ∧
    (run_connect env w if_name cb none).2.task = w.task ∧
    (run_connect env w if_name cb none).2.provider = w.provider ∧
    (run_connect env w if_name cb none).2.cb_calls
      = if cb then w.cb_calls ++ [-EINVAL] else w.cb_calls := by
  refine ⟨?_, ?_, ?_, ?_⟩ <;> simp only [run_connect, run_connect_body]

/-! ## Properties of the credential request -/

/-- C9, as stated, fails on the code: when `connman_agent_queue_message` answers `-EBUSY`,
`request_cookie_input` returns the in-progress marker, not the busy error. -/
theorem request_cookie_input_busy_counterexample :
    (request_cookie_input (example_agent (-EBUSY)) (some example_provider)
      (some (fun (cookie error : Option CStr) => (cookie, error)))).1 = -EINPROGRESS ∧
    -EINPROGRESS ≠ -EBUSY := by
  decide

/-- C9, amended. `request_cookie_input` called for a provider that already has a request
pending (the agent queue answers busy, `-EBUSY`) does not fail: with a provider, a
registered agent and a continuation, and the allocations succeeding, it returns the
in-progress marker `-EINPROGRESS` and leaves the continuation with the queue.  The busy
error is never its result, whatever the agent queue answers. -/
theorem request_cookie_input_busy {α : Type} (env : agent_env) (provider : vpn_provider)
    (callback : Option CStr → Option CStr → α)
    (hpath : env.agent_path.isNone = false) (hmsg : env.message_ok = true)
    (hrep : env.cookie_reply_ok = true) (hbusy : env.queue_err = -EBUSY) :
    request_cookie_input env (some provider) (some callback)
      = (-EINPROGRESS, some callback) ∧
    ∀ (env' : agent_env) (provider' : Option vpn_provider)
      (callback' : Option (Option CStr → Option CStr → α)),
      (request_cookie_input env' provider' callback').1 ≠ -EBUSY := by
  constructor
  · simp [request_cookie_input, hpath, hmsg, hrep, hbusy]
  · intro env' provider' callback'
    have h1 : (-ESRCH : Int) ≠ -EBUSY := by decide
    have h2 : (-ENOMEM : Int) ≠ -EBUSY := by decide
    have h3 : (-EINPROGRESS : Int) ≠ -EBUSY := by decide
    unfold request_cookie_input
    by_cases hq : env'.queue_err < 0 ∧ env'.queue_err ≠ -EBUSY
    · simp only [if_pos hq]
      split_ifs
      · exact h1
      · exact h2
      · exact h2
      · exact hq.2
    · simp only [if_neg hq]
      split_ifs
      · exact h1
      · exact h2
      · exact h2
      · exact h3

/-- Instance of amended C9: an agent is registered, the queue answers `-EBUSY`. -/
theorem request_cookie_input_busy_witness :
    request_cookie_input (example_agent (-EBUSY)) (some example_provider)
        (some (fun (cookie error : Option CStr) => (cookie, error)))
      = (-EINPROGRESS, some (fun (cookie error : Option CStr) => (cookie, error))) :=
  (request_cookie_input_busy (example_agent (-EBUSY)) example_provider
    (fun (cookie error : Option CStr) => (cookie, error)) rfl rfl rfl rfl).1

theorem scan_cons (entry : dbus_dict_entry) (rest : List dbus_dict_entry)
    (cookie : Option CStr) :
    request_input_cookie_scan (entry :: rest) cookie =
      if entry_malformed entry = true then cookie
      else match entry_cookie entry with
        | some s => request_input_cookie_scan rest (some s)
        | none => request_input_cookie_scan rest cookie := by
  obtain ⟨key, value⟩ := entry
  cases key with
  | string k =>
    by_cases hk : k = "OpenConnect.Cookie".toList
    · cases value with
      | string s => simp only [request_input_cookie_scan, entry_malformed, if_pos hk, if_true]
      | variant v =>
        cases v with
        | string s =>
          simp only [request_input_cookie_scan, entry_malformed, entry_cookie, if_pos hk,
            Bool.false_eq_true, if_false]
        | other => simp only [request_input_cookie_scan, entry_malformed, if_pos hk, if_true]
      | other => simp only [request_input_cookie_scan, entry_malformed, if_pos hk, if_true]
    · cases value with
      | string s =>
        simp only [request_input_cookie_scan, entry_malformed, entry_cookie, if_neg hk,
          Bool.false_eq_true, if_false]
      | variant v =>
        cases v with
        | string s =>
          simp only [request_input_cookie_scan, entry_malformed, entry_cookie, if_neg hk,
            Bool.false_eq_true, if_false]
        | other =>
          simp only [request_input_cookie_scan, entry_malformed, entry_cookie, if_neg hk,
            Bool.false_eq_true, if_false]
      | other =>
        simp only [request_input_cookie_scan, entry_malformed, entry_cookie, if_neg hk,
          Bool.false_eq_true, if_false]
  | variant v => simp only [request_input_cookie_scan, entry_malformed, if_true]
  | other => simp only [request_input_cookie_scan, entry_malformed, if_true]

theorem entry_cookie_eq_some (entry : dbus_dict_entry) (v : CStr)
    (h : entry_cookie entry = some v) :
    entry.key = dbus_arg.string "OpenConnect.Cookie".toList ∧
      entry.value = dbus_arg.variant (dbus_variant.string v) := by
  obtain ⟨key, value⟩ := entry
  cases key with
  | string k =>
    cases value with
    | variant x =>
      cases x with
      | string s =>
        by_cases hk : k = "OpenConnect.Cookie".toList
        · simp only [entry_cookie, if_pos hk, Option.some.injEq] at h
          rw [hk, h]
          exact ⟨rfl, rfl⟩
        · simp only [entry_cookie, if_neg hk, reduceCtorEq] at h
      | other => simp only [entry_cookie, reduceCtorEq] at h
    | string s => simp only [entry_cookie, reduceCtorEq] at h
    | other => simp only [entry_cookie, reduceCtorEq] at h
  | variant x => simp only [entry_cookie, reduceCtorEq] at h
  | other => simp only [entry_cookie, reduceCtorEq] at h

theorem scan_of_no_cookie_before_malformed (entries : List dbus_dict_entry)
    (cookie : Option CStr)
    (h : ∀ e ∈ entries.takeWhile (fun e => !entry_malformed e), entry_cookie e = none) :
    request_input_cookie_scan entries cookie = cookie := by
  induction entries with
  | nil => rfl
  | cons e rest ih =>
    rw [scan_cons]
    by_cases hm : entry_malformed e = true
    · rw [if_pos hm]
    · rw [if_neg hm]
      have htw : List.takeWhile (fun e => !entry_malformed e) (e :: rest)
          = e :: List.takeWhile (fun e => !entry_malformed e) rest := by
        simp [List.takeWhile_cons, hm]
      rw [htw] at h
      rw [h e (List.mem_cons_self _ _)]
      exact ih (fun x hx => h x (List.mem_cons_of_mem _ hx))

theorem scan_some_of_wellformed (entries : List dbus_dict_entry) (v : CStr)
    (hwf : ∀ e ∈ entries, entry_malformed e = false)
    (huniq : ∀ e ∈ entries, ∀ w, entry_cookie e = some w → w = v) :
    request_input_cookie_scan entries (some v) = some v := by
  induction entries with
  | nil => rfl
  | cons e rest ih =>
    have hrest := ih (fun x hx => hwf x (List.mem_cons_of_mem _ hx))
      (fun x hx => huniq x (List.mem_cons_of_mem _ hx))
    rw [scan_cons, hwf e (List.mem_cons_self _ _)]
    simp only [Bool.false_eq_true, if_false]
    cases hc : entry_cookie e with
    | none => exact hrest
    | some w =>
      rw [huniq e (List.mem_cons_self _ _) w hc]
      exact hrest

theorem scan_of_wellformed (entries : List dbus_dict_entry) (cookie : Option CStr) (v : CStr)
    (hwf : ∀ e ∈ entries, entry_malformed e = false)
    (hex : ∃ e ∈ entries, entry_cookie e = some v)
    (huniq : ∀ e ∈ entries, ∀ w, entry_cookie e = some w → w = v) :
    request_input_cookie_scan entries cookie = some v := by
  induction entries generalizing cookie with
  | nil => simp at hex
  | cons e rest ih =>
    have hwf' : ∀ x ∈ rest, entry_malformed x = false :=
      fun x hx => hwf x (List.mem_cons_of_mem _ hx)
    have huniq' : ∀ x ∈ rest, ∀ w, entry_cookie x = some w → w = v :=
      fun x hx => huniq x (List.mem_cons_of_mem _ hx)
    rw [scan_cons, hwf e (List.mem_cons_self _ _)]
    simp only [Bool.false_eq_true, if_false]
    cases hc : entry_cookie e with
    | some w =>
      rw [huniq e (List.mem_cons_self _ _) w hc]
      exact scan_some_of_wellformed rest v hwf' huniq'
    | none =>
      apply ih cookie hwf' _ huniq'
      obtain ⟨x, hx, hxc⟩ := hex
      rcases List.mem_cons.mp hx with rfl | hx
      · rw [hc] at hxc; cases hxc
      · exact ⟨x, hx, hxc⟩

theorem scan_eq_some (entries : List dbus_dict_entry) (cookie : Option CStr) (v : CStr)
    (h : request_input_cookie_scan entries cookie = some v) :
    cookie = some v ∨ ∃ e ∈ entries, entry_cookie e = some v := by
  induction entries generalizing cookie with
  | nil => exact Or.inl h
  | cons e rest ih =>
    rw [scan_cons] at h
    by_cases hm : entry_malformed e = true
    · rw [if_pos hm] at h
      exact Or.inl h
    · rw [if_neg hm] at h
      cases hc : entry_cookie e with
      | none =>
        rw [hc] at h
        rcases ih cookie h with h' | ⟨x, hx, hxc⟩
        · exact Or.inl h'
        · exact Or.inr ⟨x, List.mem_cons_of_mem _ hx, hxc⟩
      | some w =>
        rw [hc] at h
        rcases ih (some w) h with h' | ⟨x, hx, hxc⟩
        · exact Or.inr ⟨e, List.mem_cons_self _ _, by rw [hc, h']⟩
        · exact Or.inr ⟨x, List.mem_cons_of_mem _ hx, hxc⟩

theorem scan_eq_last_cookie (entries : List dbus_dict_entry) (acc : Option CStr) :
    request_input_cookie_scan entries acc =
      match (List.filterMap entry_cookie
          (entries.takeWhile (fun e => !entry_malformed e))).getLast? with
      | some c => some c
      | none => acc := by
  induction entries generalizing acc with
  | nil => rfl
  | cons e rest ih =>
    rw [scan_cons]
    by_cases hm : entry_malformed e = true
    · rw [if_pos hm, List.takeWhile_cons_of_neg (by simp [hm])]
      rfl
    · rw [if_neg hm, List.takeWhile_cons_of_pos (by simpa using hm)]
      cases hc : entry_cookie e with
      | none =>
        rw [List.filterMap_cons_none hc]
        simp only []
        exact ih acc
      | some s =>
        rw [List.filterMap_cons_some hc, List.getLast?_cons]
        simp only []
        rw [ih (some s)]
        cases (List.filterMap entry_cookie
          (List.takeWhile (fun e => !entry_malformed e) rest)).getLast? <;> rfl

/-- C10, as stated, fails on the code: the scan stops at the first malformed entry and
keeps the cookie found before it.  A body whose `OpenConnect.Cookie` entry is followed by an
entry with a key that is not a string, or by a second `OpenConnect.Cookie` entry whose
variant holds no string, is malformed, and the continuation still receives the cookie. -/
theorem request_input_cookie_reply_counterexample :
    entry_malformed ⟨dbus_arg.other, dbus_arg.other⟩ = true ∧
    request_input_cookie_reply
        (dbus_reply.method_return (some
          [⟨dbus_arg.string "OpenConnect.Cookie".toList,
              dbus_arg.variant (dbus_variant.string "abc".toList)⟩,
           ⟨dbus_arg.other, dbus_arg.other⟩]))
        (fun (cookie error : Option CStr) => (cookie, error))
      = (some "abc".toList, none) ∧
    entry_malformed
        ⟨dbus_arg.string "OpenConnect.Cookie".toList, dbus_arg.variant dbus_variant.other⟩
      = true ∧
    request_input_cookie_reply
        (dbus_reply.method_return (some
          [⟨dbus_arg.string "OpenConnect.Cookie".toList,
              dbus_arg.variant (dbus_variant.string "abc".toList)⟩,
           ⟨dbus_arg.string "OpenConnect.Cookie".toList,
              dbus_arg.variant dbus_variant.other⟩]))
        (fun (cookie error : Option CStr) => (cookie, error))
      = (some "abc".toList, none) := by
  decide

/-- C10, amended. For every reply of the agent that is not an error, the continuation is
called once, with `error = None` and a cookie determined as follows:
* if the body is not a dictionary, the cookie is `None`;
* if the body is a dictionary, the scan stops at the first malformed entry (an entry whose
  key is not a string, or an `OpenConnect.Cookie` entry whose value is not a variant holding
  a string), and the cookie is the string of the last entry before that point that maps
  `OpenConnect.Cookie` to a variant holding a string, `None` when there is no such entry;
* so the cookie is `None` if no such entry comes before the first malformed entry, which
  covers an absent key and a body malformed at or before its first cookie entry;
* if no entry is malformed and the body maps `OpenConnect.Cookie` to the string `v`, the
  cookie is `v`;
* the continuation receives the cookie `v` only when some entry of the body maps
  `OpenConnect.Cookie` to a variant holding the string `v` (entries after it may be
  malformed). -/
theorem request_input_cookie_reply_scan {α : Type} (entries : List dbus_dict_entry)
    (callback : Option CStr → Option CStr → α) :
    request_input_cookie_reply (dbus_reply.method_return none) callback
      = callback none none ∧
    request_input_cookie_reply (dbus_reply.method_return (some entries)) callback
      = callback
          (List.filterMap entry_cookie
            (entries.takeWhile (fun e => !entry_malformed e))).getLast?
          none ∧
    ((∀ e ∈ entries.takeWhile (fun e => !entry_malformed e), entry_cookie e = none) →
      request_input_cookie_reply (dbus_reply.method_return (some entries)) callback
        = callback none none) ∧
    ((∀ e ∈ entries, e.key ≠ dbus_arg.string "OpenConnect.Cookie".toList) →
      request_input_cookie_reply (dbus_reply.method_return (some entries)) callback
        = callback none none) ∧
    (∀ v, (∀ e ∈ entries, entry_malformed e = false) →
      (∃ e ∈ entries, e.key = dbus_arg.string "OpenConnect.Cookie".toList ∧
        e.value = dbus_arg.variant (dbus_variant.string v)) →
      (∀ e ∈ entries, ∀ w, e.key = dbus_arg.string "OpenConnect.Cookie".toList →
        e.value = dbus_arg.variant (dbus_variant.string w) → w = v) →
      request_input_cookie_reply (dbus_reply.method_return (some entries)) callback
        = callback (some v) none) ∧
    (∀ v, request_input_cookie_reply (dbus_reply.method_return (some entries))
        (fun (cookie error : Option CStr) => (cookie, error)) = (some v, none) →
      ∃ e ∈ entries, e.key = dbus_arg.string "OpenConnect.Cookie".toList ∧
        e.value = dbus_arg.variant (dbus_variant.string v)) := by
  refine ⟨rfl, ?_, ?_, ?_, ?_, ?_⟩
  · simp only [request_input_cookie_reply, scan_eq_last_cookie entries none]
    cases (List.filterMap entry_cookie
      (List.takeWhile (fun e => !entry_malformed e) entries)).getLast? <;> rfl
  · intro h
    simp only [request_input_cookie_reply, scan_of_no_cookie_before_malformed entries none h]
  · intro h
    have h' : ∀ e ∈ entries.takeWhile (fun e => !entry_malformed e), entry_cookie e = none := by
      intro e he
      cases hc : entry_cookie e with
      | none => rfl
      | some w =>
        exact absurd (entry_cookie_eq_some e w hc).1 (h e (List.takeWhile_subset _ he))
    simp only [request_input_cookie_reply, scan_of_no_cookie_before_malformed entries none h']
  · intro v hwf hex huniq
    have hex' : ∃ e ∈ entries, entry_cookie e = some v := by
      obtain ⟨e, he, hk, hv⟩ := hex
      refine ⟨e, he, ?_⟩
      obtain ⟨key, value⟩ := e
      simp only at hk hv
      rw [hk, hv]
      simp only [entry_cookie, if_true]
    have huniq' : ∀ e ∈ entries, ∀ w, entry_cookie e = some w → w = v := by
      intro e he w hc
      have := entry_cookie_eq_some e w hc
      exact huniq e he w this.1 this.2
    simp only [request_input_cookie_reply, scan_of_wellformed entries none v hwf hex' huniq']
  · intro v h
    simp only [request_input_cookie_reply, Prod.mk.injEq, and_true] at h
    rcases scan_eq_some entries none v h with h' | ⟨e, he, hc⟩
    · cases h'
    · exact ⟨e, he, entry_cookie_eq_some e v hc⟩

/-- Instance of amended C10: a well-formed body with a `Host` entry and the cookie `abc`
hands `abc` to the continuation; the body with the `Host` entry alone hands over `None`; and
a body whose cookie entry `abc` is followed by a malformed entry hands over `abc`, with no
error. -/
theorem request_input_cookie_reply_scan_witness :
    request_input_cookie_reply
        (dbus_reply.method_return (some
          [⟨dbus_arg.string "Host".toList,
              dbus_arg.variant (dbus_variant.string "vpn.example.com".toList)⟩,
           ⟨dbus_arg.string "OpenConnect.Cookie".toList,
              dbus_arg.variant (dbus_variant.string "abc".toList)⟩]))
        (fun (cookie error : Option CStr) => (cookie, error))
      = (some "abc".toList, none) ∧
    request_input_cookie_reply
        (dbus_reply.method_return (some
          [⟨dbus_arg.string "Host".toList,
              dbus_arg.variant (dbus_variant.string "vpn.example.com".toList)⟩]))
        (fun (cookie error : Option CStr) => (cookie, error))
      = (none, none) ∧
    request_input_cookie_reply
        (dbus_reply.method_return (some
          [⟨dbus_arg.string "OpenConnect.Cookie".toList,
              dbus_arg.variant (dbus_variant.string "abc".toList)⟩,
           ⟨dbus_arg.string "OpenConnect.Cookie".toList,
              dbus_arg.variant dbus_variant.other⟩]))
        (fun (cookie error : Option CStr) => (cookie, error))
      = ((List.filterMap entry_cookie
            (List.takeWhile (fun e => !entry_malformed e)
              [⟨dbus_arg.string "OpenConnect.Cookie".toList,
                  dbus_arg.variant (dbus_variant.string "abc".toList)⟩,
               ⟨dbus_arg.string "OpenConnect.Cookie".toList,
                  dbus_arg.variant dbus_variant.other⟩])).getLast?,
          none) ∧
    (List.filterMap entry_cookie
        (List.takeWhile (fun e => !entry_malformed e)
          [⟨dbus_arg.string "OpenConnect.Cookie".toList,
              dbus_arg.variant (dbus_variant.string "abc".toList)⟩,
           ⟨dbus_arg.string "OpenConnect.Cookie".toList,
              dbus_arg.variant dbus_variant.other⟩])).getLast?
      = some "abc".toList :=
  ⟨(request_input_cookie_reply_scan
      [⟨dbus_arg.string "Host".toList,
          dbus_arg.variant (dbus_variant.string "vpn.example.com".toList)⟩,
       ⟨dbus_arg.string "OpenConnect.Cookie".toList,
          dbus_arg.variant (dbus_variant.string "abc".toList)⟩]
      (fun (cookie error : Option CStr) => (cookie, error))).2.2.2.2.1 "abc".toList
      (by decide) (by decide)
      (by
        intro e he w hk hv
        simp only [List.mem_cons, List.mem_singleton, List.not_mem_nil, or_false] at he
        rcases he with rfl | rfl
        · exact absurd hk (by decide)
        · injection hv with h1
          injection h1 with h2
          exact h2.symm),
   (request_input_cookie_reply_scan
      [⟨dbus_arg.string "Host".toList,
          dbus_arg.variant (dbus_variant.string "vpn.example.com".toList)⟩]
      (fun (cookie error : Option CStr) => (cookie, error))).2.2.2.1 (by decide),
   (request_input_cookie_reply_scan
      [⟨dbus_arg.string "OpenConnect.Cookie".toList,
          dbus_arg.variant (dbus_variant.string "abc".toList)⟩,
       ⟨dbus_arg.string "OpenConnect.Cookie".toList,
          dbus_arg.variant dbus_variant.other⟩]
      (fun (cookie error : Option CStr) => (cookie, error))).2.1,
   by decide⟩

/-! ## Properties of `oc_error_code` and `oc_save` -/

/-- C12. `oc_error_code` maps exit code 1 to CONNECT_FAILED, exit code 2 to LOGIN_FAILED, and
every other integer (0, the negative ones and 77 among them) to UNKNOWN. -/
theorem oc_error_code_classification :
    oc_error_code 1 = vpn_provider_error.VPN_PROVIDER_ERROR_CONNECT_FAILED ∧
    oc_error_code 2 = vpn_provider_error.VPN_PROVIDER_ERROR_LOGIN_FAILED ∧
    oc_error_code 0 = vpn_provider_error.VPN_PROVIDER_ERROR_UNKNOWN ∧
    oc_error_code 77 = vpn_provider_error.VPN_PROVIDER_ERROR_UNKNOWN ∧
    (∀ exit_code : Int, exit_code < 0 →
      oc_error_code exit_code = vpn_provider_error.VPN_PROVIDER_ERROR_UNKNOWN) ∧
    (∀ exit_code : Int, exit_code ≠ 1 → exit_code ≠ 2 →
      oc_error_code exit_code = vpn_provider_error.VPN_PROVIDER_ERROR_UNKNOWN) := by
  have hgen : ∀ exit_code : Int, exit_code ≠ 1 → exit_code ≠ 2 →
      oc_error_code exit_code = vpn_provider_error.VPN_PROVIDER_ERROR_UNKNOWN := by
    intro c h1 h2
    unfold oc_error_code
    rw [if_neg h1, if_neg h2]
  refine ⟨by decide, by decide, by decide, by decide, ?_, hgen⟩
  intro c hc
  exact hgen c (by omega) (by omega)

theorem set_string_other (keyfile : GKeyFile) (group key value g k : CStr)
    (h : ¬ (g = group ∧ k = key)) :
    g_key_file_set_string keyfile group key value g k = keyfile g k := by
  unfold g_key_file_set_string
  rw [if_neg h]

theorem set_string_same (keyfile : GKeyFile) (group key value : CStr) :
    g_key_file_set_string keyfile group key value group key = some value := by
  unfold g_key_file_set_string
  rw [if_pos ⟨rfl, rfl⟩]

/-- Instance of C12: the exit codes -3 and 255 are classified UNKNOWN. -/
theorem oc_error_code_classification_witness :
    oc_error_code (-3) = vpn_provider_error.VPN_PROVIDER_ERROR_UNKNOWN ∧
    oc_error_code 255 = vpn_provider_error.VPN_PROVIDER_ERROR_UNKNOWN :=
  ⟨oc_error_code_classification.2.2.2.2.1 (-3) (by decide),
   oc_error_code_classification.2.2.2.2.2 255 (by decide) (by decide)⟩

theorem oc_save_other (provider : vpn_provider) (keyfile : GKeyFile) (group key : CStr)
    (h : ¬ (group = vpn_provider_get_save_group provider ∧
      (key = "OpenConnect.ServerCert".toList ∨ key = "OpenConnect.CACert".toList ∨
        key = "VPN.MTU".toList))) :
    (oc_save provider keyfile).2 group key = keyfile group key := by
  have h1 : ¬ (group = vpn_provider_get_save_group provider ∧
      key = "OpenConnect.ServerCert".toList) := fun hc => h ⟨hc.1, Or.inl hc.2⟩
  have h2 : ¬ (group = vpn_provider_get_save_group provider ∧
      key = "OpenConnect.CACert".toList) := fun hc => h ⟨hc.1, Or.inr (Or.inl hc.2)⟩
  have h3 : ¬ (group = vpn_provider_get_save_group provider ∧
      key = "VPN.MTU".toList) := fun hc => h ⟨hc.1, Or.inr (Or.inr hc.2)⟩
  unfold oc_save
  cases vpn_provider_get_string provider "OpenConnect.ServerCert".toList <;>
    cases vpn_provider_get_string provider "OpenConnect.CACert".toList <;>
    cases vpn_provider_get_string provider "VPN.MTU".toList <;>
    simp only [set_string_other _ _ _ _ _ _ h1, set_string_other _ _ _ _ _ _ h2,
      set_string_other _ _ _ _ _ _ h3]

theorem oc_save_servercert (provider : vpn_provider) (keyfile : GKeyFile) :
    (oc_save provider keyfile).2 (vpn_provider_get_save_group provider)
        "OpenConnect.ServerCert".toList
      = match vpn_provider_get_string provider "OpenConnect.ServerCert".toList with
        | some setting => some setting
        | none => keyfile (vpn_provider_get_save_group provider)
            "OpenConnect.ServerCert".toList := by
  have h2 : ¬ (vpn_provider_get_save_group provider = vpn_provider_get_save_group provider ∧
      "OpenConnect.ServerCert".toList = "OpenConnect.CACert".toList) :=
    fun hc => absurd hc.2 (by decide)
  have h3 : ¬ (vpn_provider_get_save_group provider = vpn_provider_get_save_group provider ∧
      "OpenConnect.ServerCert".toList = "VPN.MTU".toList) :=
    fun hc => absurd hc.2 (by decide)
  unfold oc_save
  cases vpn_provider_get_string provider "OpenConnect.ServerCert".toList <;>
    cases vpn_provider_get_string provider "OpenConnect.CACert".toList <;>
    cases vpn_provider_get_string provider "VPN.MTU".toList <;>
    simp only [set_string_other _ _ _ _ _ _ h2, set_string_other _ _ _ _ _ _ h3,
      set_string_same]

theorem oc_save_cacert (provider : vpn_provider) (keyfile : GKeyFile) :
    (oc_save provider keyfile).2 (vpn_provider_get_save_group provider)
        "OpenConnect.CACert".toList
      = match vpn_provider_get_string provider "OpenConnect.CACert".toList with
        | some setting => some setting
        | none => keyfile (vpn_provider_get_save_group provider)
            "OpenConnect.CACert".toList := by
  have h1 : ¬ (vpn_provider_get_save_group provider = vpn_provider_get_save_group provider ∧
      "OpenConnect.CACert".toList = "OpenConnect.ServerCert".toList) :=
    fun hc => absurd hc.2 (by decide)
  have h3 : ¬ (vpn_provider_get_save_group provider = vpn_provider_get_save_group provider ∧
      "OpenConnect.CACert".toList = "VPN.MTU".toList) :=
    fun hc => absurd hc.2 (by decide)
  unfold oc_save
  cases vpn_provider_get_string provider "OpenConnect.ServerCert".toList <;>
    cases vpn_provider_get_string provider "OpenConnect.CACert".toList <;>
    cases vpn_provider_get_string provider "VPN.MTU".toList <;>
    simp only [set_string_other _ _ _ _ _ _ h1, set_string_other _ _ _ _ _ _ h3,
      set_string_same]

theorem oc_save_mtu (provider : vpn_provider) (keyfile : GKeyFile) :
    (oc_save provider keyfile).2 (vpn_provider_get_save_group provider) "VPN.MTU".toList
      = match vpn_provider_get_string provider "VPN.MTU".toList with
        | some setting => some setting
        | none => keyfile (vpn_provider_get_save_group provider) "VPN.MTU".toList := by
  have h1 : ¬ (vpn_provider_get_save_group provider = vpn_provider_get_save_group provider ∧
      "VPN.MTU".toList = "OpenConnect.ServerCert".toList) :=
    fun hc => absurd hc.2 (by decide)
  have h2 : ¬ (vpn_provider_get_save_group provider = vpn_provider_get_save_group provider ∧
      "VPN.MTU".toList = "OpenConnect.CACert".toList) :=
    fun hc => absurd hc.2 (by decide)
  unfold oc_save
  cases vpn_provider_get_string provider "OpenConnect.ServerCert".toList <;>
    cases vpn_provider_get_string provider "OpenConnect.CACert".toList <;>
    cases vpn_provider_get_string provider "VPN.MTU".toList <;>
    simp only [set_string_other _ _ _ _ _ _ h1, set_string_other _ _ _ _ _ _ h2,
      set_string_same]

/-- C13. `oc_save` persists only the allow-list.  For every provider and every key file,
`oc_save` returns 0; the key file it leaves differs from the one it was given at most at the
keys `OpenConnect.ServerCert`, `OpenConnect.CACert` and `VPN.MTU` of the save group of the
provider; each of these holds the value of the provider when the provider has that setting
and is left unchanged when it does not; no other key (for instance `Host`,
`OpenConnect.Cookie`, `VPN.Domain`) is written in any group. -/
theorem oc_save_allow_list (provider : vpn_provider) (keyfile : GKeyFile) :
    (oc_save provider keyfile).1 = 0 ∧
    (∀ group key,
      ¬ (group = vpn_provider_get_save_group provider ∧
        (key = "OpenConnect.ServerCert".toList ∨ key = "OpenConnect.CACert".toList ∨
          key = "VPN.MTU".toList)) →
      (oc_save provider keyfile).2 group key = keyfile group key) ∧
    (∀ key, key = "OpenConnect.ServerCert".toList ∨ key = "OpenConnect.CACert".toList ∨
        key = "VPN.MTU".toList →
      (oc_save provider keyfile).2 (vpn_provider_get_save_group provider) key
        = match vpn_provider_get_string provider key with
          | some setting => some setting
          | none => keyfile (vpn_provider_get_save_group provider) key) ∧
    (∀ group,
      (oc_save provider keyfile).2 group "Host".toList = keyfile group "Host".toList ∧
      (oc_save provider keyfile).2 group "OpenConnect.Cookie".toList
        = keyfile group "OpenConnect.Cookie".toList ∧
      (oc_save provider keyfile).2 group "VPN.Domain".toList
        = keyfile group "VPN.Domain".toList) := by
  refine ⟨rfl, oc_save_other provider keyfile, ?_, ?_⟩
  · intro key hkey
    rcases hkey with h | h | h
    · rw [h]; exact oc_save_servercert provider keyfile
    · rw [h]; exact oc_save_cacert provider keyfile
    · rw [h]; exact oc_save_mtu provider keyfile
  · intro group
    refine ⟨?_, ?_, ?_⟩ <;>
    · apply oc_save_other
      intro hc
      rcases hc.2 with h | h | h <;> exact absurd h (by decide)

/-- Instance of C13: a provider with a server certificate pin and an MTU; the key file gets
these two keys, and neither `OpenConnect.CACert` nor `Host`. -/
theorem oc_save_allow_list_witness :
    (oc_save
        { example_provider with
          settings := [("Host".toList, "vpn.example.com".toList),
            ("OpenConnect.ServerCert".toList, "sha1:abcd".toList),
            ("VPN.MTU".toList, "1400".toList)] }
        (fun _ _ => none)).2 "provider_vpn_example_com".toList "VPN.MTU".toList
      = some "1400".toList ∧
    (oc_save
        { example_provider with
          settings := [("Host".toList, "vpn.example.com".toList),
            ("OpenConnect.ServerCert".toList, "sha1:abcd".toList),
            ("VPN.MTU".toList, "1400".toList)] }
        (fun _ _ => none)).2 "provider_vpn_example_com".toList "Host".toList
      = none :=
  ⟨(oc_save_allow_list
      { example_provider with
        settings := [("Host".toList, "vpn.example.com".toList),
          ("OpenConnect.ServerCert".toList, "sha1:abcd".toList),
          ("VPN.MTU".toList, "1400".toList)] }
      (fun _ _ => none)).2.2.1 "VPN.MTU".toList (Or.inr (Or.inr rfl)),
   (oc_save_allow_list
      { example_provider with
        settings := [("Host".toList, "vpn.example.com".toList),
          ("OpenConnect.ServerCert".toList, "sha1:abcd".toList),
          ("VPN.MTU".toList, "1400".toList)] }
      (fun _ _ => none)).2.1 "provider_vpn_example_com".toList "Host".toList
      (by decide)⟩

/-- C14. `oc_save` is idempotent: for every provider and every key file `s`, saving into the
key file that a first `oc_save` left gives the same result, value returned and key file, as
that first call. -/
theorem oc_save_idempotent (provider : vpn_provider) (s : GKeyFile) :
    oc_save provider (oc_save provider s).2 = oc_save provider s := by
  apply Prod.ext
  · rfl
  · funext group key
    by_cases h : group = vpn_provider_get_save_group provider ∧
        (key = "OpenConnect.ServerCert".toList ∨ key = "OpenConnect.CACert".toList ∨
          key = "VPN.MTU".toList)
    · obtain ⟨hg, hk | hk | hk⟩ := h
      · rw [hg, hk, oc_save_servercert provider (oc_save provider s).2,
          oc_save_servercert provider s]
        cases vpn_provider_get_string provider "OpenConnect.ServerCert".toList <;> rfl
      · rw [hg, hk, oc_save_cacert provider (oc_save provider s).2,
          oc_save_cacert provider s]
        cases vpn_provider_get_string provider "OpenConnect.CACert".toList <;> rfl
      · rw [hg, hk, oc_save_mtu provider (oc_save provider s).2, oc_save_mtu provider s]
        cases vpn_provider_get_string provider "VPN.MTU".toList <;> rfl
    · rw [oc_save_other provider _ group key h]

/-! ## What `oc_notify` applies to the provider -/

theorem entry_provider_frame (key value : CStr) (l : notify_locals)
    (provider : vpn_provider) :
    (oc_notify_entry key value l provider).2.settings = provider.settings ∧
    (oc_notify_entry key value l provider).2.save_group = provider.save_group ∧
    (oc_notify_entry key value l provider).2.ipaddress = provider.ipaddress ∧
    (oc_notify_entry key value l provider).2.domain = provider.domain := by
  unfold oc_notify_entry
  dsimp only
  split_ifs <;> exact ⟨rfl, rfl, rfl, rfl⟩

theorem entry_nameservers (key value : CStr) (l : notify_locals) (provider : vpn_provider) :
    (oc_notify_entry key value l provider).2.nameservers =
      if key = "INTERNAL_IP4_DNS".toList ∨ key = "INTERNAL_IP6_DNS".toList then some value
      else provider.nameservers := by
  unfold oc_notify_entry
  dsimp only
  split_ifs <;> rfl

theorem entry_pac (key value : CStr) (l : notify_locals) (provider : vpn_provider) :
    (oc_notify_entry key value l provider).2.pac =
      if key = "CISCO_PROXY_PAC".toList then some value else provider.pac := by
  unfold oc_notify_entry
  dsimp only
  split_ifs <;> rfl

theorem entry_routes (key value : CStr) (l : notify_locals) (provider : vpn_provider) :
    (oc_notify_entry key value l provider).2.routes =
      if is_split_include key = true then provider.routes ++ [(key, value)]
      else provider.routes := by
  unfold oc_notify_entry is_split_include
  dsimp only
  split_ifs with h1 h2 h3 h4 <;> first | rfl | simp_all

theorem loop_provider_frame (dict : List (CStr × CStr)) (l : notify_locals)
    (provider : vpn_provider) :
    (oc_notify_loop dict l provider).2.settings = provider.settings ∧
    (oc_notify_loop dict l provider).2.save_group = provider.save_group ∧
    (oc_notify_loop dict l provider).2.ipaddress = provider.ipaddress ∧
    (oc_notify_loop dict l provider).2.domain = provider.domain := by
  induction dict generalizing l provider with
  | nil => exact ⟨rfl, rfl, rfl, rfl⟩
  | cons e rest ih =>
    obtain ⟨key, value⟩ := e
    simp only [oc_notify_loop]
    have h := ih (oc_notify_entry key value l provider).1 (oc_notify_entry key value l provider).2
    have he := entry_provider_frame key value l provider
    exact ⟨h.1.trans he.1, h.2.1.trans he.2.1, h.2.2.1.trans he.2.2.1, h.2.2.2.trans he.2.2.2⟩

theorem loop_nameservers (dict : List (CStr × CStr)) (l : notify_locals)
    (provider : vpn_provider) :
    (oc_notify_loop dict l provider).2.nameservers
      = last_nameservers dict provider.nameservers := by
  induction dict generalizing l provider with
  | nil => rfl
  | cons e rest ih =>
    obtain ⟨key, value⟩ := e
    simp only [oc_notify_loop, last_nameservers]
    rw [ih, entry_nameservers]

theorem loop_pac (dict : List (CStr × CStr)) (l : notify_locals) (provider : vpn_provider) :
    (oc_notify_loop dict l provider).2.pac
      = last_value "CISCO_PROXY_PAC".toList dict provider.pac := by
  induction dict generalizing l provider with
  | nil => rfl
  | cons e rest ih =>
    obtain ⟨key, value⟩ := e
    simp only [oc_notify_loop, last_value]
    rw [ih, entry_pac]

theorem loop_routes (dict : List (CStr × CStr)) (l : notify_locals) (provider : vpn_provider) :
    (oc_notify_loop dict l provider).2.routes
      = provider.routes ++ dict.filter (fun e => is_split_include e.1) := by
  induction dict generalizing l provider with
  | nil => simp [oc_notify_loop]
  | cons e rest ih =>
    obtain ⟨key, value⟩ := e
    simp only [oc_notify_loop]
    rw [ih, entry_routes]
    by_cases hk : is_split_include key = true
    · rw [if_pos hk, List.filter_cons_of_pos (by simpa using hk), List.append_assoc]
      rfl
    · rw [if_neg hk, List.filter_cons_of_neg (by simpa using hk)]

theorem loop_append (a b : List (CStr × CStr)) (l : notify_locals) (provider : vpn_provider) :
    oc_notify_loop (a ++ b) l provider
      = oc_notify_loop b (oc_notify_loop a l provider).1 (oc_notify_loop a l provider).2 := by
  induction a generalizing l provider with
  | nil => rfl
  | cons e rest ih =>
    obtain ⟨key, value⟩ := e
    simp only [List.cons_append, oc_notify_loop]
    exact ih _ _

theorem oc_notify_connect_shape (alloc_ok : Bool) (provider : vpn_provider)
    (dict : List (CStr × CStr)) :
    oc_notify alloc_ok ⟨"connect".toList, dict⟩ (some provider)
        = (vpn_state.VPN_STATE_FAILURE,
            some (oc_notify_loop dict (oc_notify_locals provider) provider).2) ∨
    ∃ ip, oc_notify alloc_ok ⟨"connect".toList, dict⟩ (some provider)
        = (vpn_state.VPN_STATE_CONNECT,
            some { (oc_notify_loop dict (oc_notify_locals provider) provider).2 with
              ipaddress := some ip,
              domain := (oc_notify_loop dict (oc_notify_locals provider) provider).1.domain }) := by
  cases alloc_ok with
  | false =>
    left
    simp only [oc_notify, ne_eq, not_true_eq_false, if_false, connman_ipaddress_alloc,
      Bool.false_eq_true, ite_self]
  | true =>
    cases h4 : (oc_notify_loop dict (oc_notify_locals provider) provider).1.addressv4 with
    | some a => exact Or.inr ⟨_, oc_notify_of_v4 provider dict a h4⟩
    | none =>
      cases h6 : (oc_notify_loop dict (oc_notify_locals provider) provider).1.addressv6 with
      | some a => exact Or.inr ⟨_, oc_notify_of_v6 provider dict a h4 h6⟩
      | none => exact Or.inl (oc_notify_of_none provider dict true h4 h6)

/-- C15, as stated, fails on the code: the nameservers, the proxy URL and the routes are
handed to the provider while the dictionary is read, before the outcome is known.  A
dictionary with a DNS entry, a proxy entry and a split-include entry but no address fails,
and the provider has been given all three. -/
theorem oc_notify_failure_counterexample :
    (oc_notify true
        ⟨"connect".toList,
          [("INTERNAL_IP4_DNS".toList, "10.0.0.2".toList),
           ("CISCO_PROXY_PAC".toList, "http://proxy/pac".toList),
           ("CISCO_SPLIT_INC_0_ADDR".toList, "192.168.0.0".toList)]⟩
        (some example_provider))
      = (vpn_state.VPN_STATE_FAILURE,
          some { example_provider with
            nameservers := some "10.0.0.2".toList,
            pac := some "http://proxy/pac".toList,
            routes := [("CISCO_SPLIT_INC_0_ADDR".toList, "192.168.0.0".toList)] }) ∧
    example_provider.nameservers = none ∧ example_provider.pac = none ∧
    example_provider.routes = [] := by
  decide

theorem last_nameservers_of_absent (dict : List (CStr × CStr)) (acc : Option CStr)
    (h : ∀ e ∈ dict, e.1 ≠ "INTERNAL_IP4_DNS".toList ∧ e.1 ≠ "INTERNAL_IP6_DNS".toList) :
    last_nameservers dict acc = acc := by
  induction dict generalizing acc with
  | nil => rfl
  | cons e rest ih =>
    have he := h e (List.mem_cons_self _ _)
    have hn : ¬ (e.1 = "INTERNAL_IP4_DNS".toList ∨ e.1 = "INTERNAL_IP6_DNS".toList) :=
      fun hc => hc.elim he.1 he.2
    simp only [last_nameservers, if_neg hn]
    exact ih acc (fun x hx => h x (List.mem_cons_of_mem _ hx))

/-- C15, amended. For every dictionary on which `oc_notify` with reason "connect" fails,
the address block, the domain and the settings of the provider are left unchanged.  The
nameservers, the proxy URL and the routes are not protected by the failure, they are set
while the entries are read: the provider holds as nameservers the value of the last
`INTERNAL_IP4_DNS` or `INTERNAL_IP6_DNS` entry (its previous nameservers when there is no
such entry), as proxy URL the value of the last `CISCO_PROXY_PAC` entry (its previous proxy
URL when there is no such entry), and as routes its previous routes followed by one route
per split-include entry, in dictionary order. -/
theorem oc_notify_failure_effects (alloc_ok : Bool) (provider : vpn_provider)
    (dict : List (CStr × CStr))
    (hfail : (oc_notify alloc_ok ⟨"connect".toList, dict⟩ (some provider)).1
      = vpn_state.VPN_STATE_FAILURE) :
    ∃ p, (oc_notify alloc_ok ⟨"connect".toList, dict⟩ (some provider)).2 = some p ∧
      p.ipaddress = provider.ipaddress ∧ p.domain = provider.domain ∧
      p.settings = provider.settings ∧
      p.nameservers = last_nameservers dict provider.nameservers ∧
      p.pac = last_value "CISCO_PROXY_PAC".toList dict provider.pac ∧
      p.routes = provider.routes ++ dict.filter (fun e => is_split_include e.1) ∧
      ((∀ e ∈ dict, e.1 ≠ "INTERNAL_IP4_DNS".toList ∧ e.1 ≠ "INTERNAL_IP6_DNS".toList) →
        p.nameservers = provider.nameservers) ∧
      ((∀ e ∈ dict, e.1 ≠ "CISCO_PROXY_PAC".toList) → p.pac = provider.pac) := by
  rcases oc_notify_connect_shape alloc_ok provider dict with h | ⟨ip, h⟩
  · have hf := loop_provider_frame dict (oc_notify_locals provider) provider
    have hns := loop_nameservers dict (oc_notify_locals provider) provider
    have hpac := loop_pac dict (oc_notify_locals provider) provider
    refine ⟨_, by rw [h], hf.2.2.1, hf.2.2.2, hf.1, hns, hpac,
      loop_routes dict _ provider, ?_, ?_⟩
    · intro hno
      rw [hns, last_nameservers_of_absent dict _ hno]
    · intro hno
      rw [hpac, last_value_of_absent _ dict _ hno]
  · rw [h] at hfail
    cases hfail

/-- Instance of amended C15: a dictionary with two DNS entries, a proxy entry and a
split-include entry but no address fails; the address block and the domain are as before,
and the provider holds the nameservers of the second DNS entry, the proxy URL and the
route. -/
theorem oc_notify_failure_effects_witness :
    ∃ p, (oc_notify true
        ⟨"connect".toList,
          [("INTERNAL_IP4_DNS".toList, "10.0.0.2".toList),
           ("CISCO_PROXY_PAC".toList, "http://proxy/pac".toList),
           ("INTERNAL_IP6_DNS".toList, "fd00::2".toList),
           ("CISCO_IPV6_SPLIT_INC_0_ADDR".toList, "fd00:1::".toList)]⟩
        (some example_provider)).2 = some p ∧
      p.ipaddress = example_provider.ipaddress ∧ p.domain = example_provider.domain ∧
      p.nameservers = some "fd00::2".toList ∧
      p.pac = some "http://proxy/pac".toList ∧
      p.routes = [("CISCO_IPV6_SPLIT_INC_0_ADDR".toList, "fd00:1::".toList)] := by
  obtain ⟨p, hp, hip, hdom, _, hns, hpac, hroutes, _, _⟩ :=
    oc_notify_failure_effects true example_provider
      [("INTERNAL_IP4_DNS".toList, "10.0.0.2".toList),
       ("CISCO_PROXY_PAC".toList, "http://proxy/pac".toList),
       ("INTERNAL_IP6_DNS".toList, "fd00::2".toList),
       ("CISCO_IPV6_SPLIT_INC_0_ADDR".toList, "fd00:1::".toList)] (by decide)
  exact ⟨p, hp, hip, hdom, hns.trans (by decide), hpac.trans (by decide),
    hroutes.trans (by decide)⟩

/-- C16. Split-include routes: for every dictionary processed by `oc_notify` with reason
"connect", whatever the outcome, the routes appended to the provider are exactly the entries
whose key starts with `CISCO_SPLIT_INC` or `CISCO_IPV6_SPLIT_INC`, in dictionary order, one
route per such entry with its key and value verbatim; entries with any other key append
nothing. -/
theorem oc_notify_routes (alloc_ok : Bool) (provider : vpn_provider)
    (dict : List (CStr × CStr)) :
    ∃ p, (oc_notify alloc_ok ⟨"connect".toList, dict⟩ (some provider)).2 = some p ∧
      p.routes = provider.routes ++
        dict.filter (fun e =>
          g_str_has_prefix e.1 "CISCO_SPLIT_INC".toList ||
            g_str_has_prefix e.1 "CISCO_IPV6_SPLIT_INC".toList) := by
  have hr := loop_routes dict (oc_notify_locals provider) provider
  rcases oc_notify_connect_shape alloc_ok provider dict with h | ⟨ip, h⟩
  · rw [h]
    exact ⟨_, rfl, hr⟩
  · rw [h]
    exact ⟨_, rfl, hr⟩

/-- C17. Unrecognized keys are ignored: for every dictionary, split as `before ++ after`
at any position, and every entry whose key is none of `VPNGATEWAY`, `INTERNAL_IP4_ADDRESS`,
`INTERNAL_IP4_NETMASK`, `INTERNAL_IP6_ADDRESS`, `INTERNAL_IP6_NETMASK`, `INTERNAL_IP4_DNS`,
`INTERNAL_IP6_DNS`, `CISCO_PROXY_PAC`, `CISCO_DEF_DOMAIN` and starts neither with
`CISCO_SPLIT_INC` nor with `CISCO_IPV6_SPLIT_INC`, inserting the entry at that position
changes neither the outcome of `oc_notify` with reason "connect" nor the provider it
leaves. -/
theorem oc_notify_unrecognized_key (alloc_ok : Bool) (provider : vpn_provider)
    (before after : List (CStr × CStr)) (key value : CStr)
    (hgw : key ≠ "VPNGATEWAY".toList)
    (h4a : key ≠ "INTERNAL_IP4_ADDRESS".toList)
    (h4n : key ≠ "INTERNAL_IP4_NETMASK".toList)
    (h6a : key ≠ "INTERNAL_IP6_ADDRESS".toList)
    (h6n : key ≠ "INTERNAL_IP6_NETMASK".toList)
    (h4d : key ≠ "INTERNAL_IP4_DNS".toList)
    (h6d : key ≠ "INTERNAL_IP6_DNS".toList)
    (hpac : key ≠ "CISCO_PROXY_PAC".toList)
    (hdom : key ≠ "CISCO_DEF_DOMAIN".toList)
    (hinc : g_str_has_prefix key "CISCO_SPLIT_INC".toList = false)
    (hinc6 : g_str_has_prefix key "CISCO_IPV6_SPLIT_INC".toList = false) :
    oc_notify alloc_ok ⟨"connect".toList, before ++ (key, value) :: after⟩ (some provider)
      = oc_notify alloc_ok ⟨"connect".toList, before ++ after⟩ (some provider) := by
  have hentry : ∀ (l : notify_locals) (p : vpn_provider),
      oc_notify_entry key value l p = (l, p) := by
    intro l p
    have hd : ¬ (key = "INTERNAL_IP4_DNS".toList ∨ key = "INTERNAL_IP6_DNS".toList) :=
      fun hc => hc.elim h4d h6d
    have hr : ¬ ( g_str_has_prefix key "CISCO_SPLIT_INC".toList = true ∨
        g_str_has_prefix key "CISCO_IPV6_SPLIT_INC".toList = true) := by
      rw [hinc, hinc6]
      exact fun hc => hc.elim Bool.false_ne_true Bool.false_ne_true
    have hdm : ¬ (l.domain = none ∧ key = "CISCO_DEF_DOMAIN".toList) := fun hc => hdom hc.2
    unfold oc_notify_entry
    simp only [if_neg hgw, if_neg h4a, if_neg h4n, if_neg h6a, if_neg h6n, if_neg hd,
      if_neg hpac, if_neg hdm, if_neg hr]
  have hloop : oc_notify_loop (before ++ (key, value) :: after) (oc_notify_locals provider)
      provider = oc_notify_loop (before ++ after) (oc_notify_locals provider) provider := by
    rw [loop_append, loop_append]
    simp only [oc_notify_loop, hentry]
  simp only [oc_notify, hloop]

/-- Instance of C17: the entry `CISCO_BANNER = hello` inserted between an address entry and
a DNS entry. -/
theorem oc_notify_unrecognized_key_witness :
    oc_notify true
        ⟨"connect".toList,
          [("INTERNAL_IP4_ADDRESS".toList, "10.0.0.5".toList)] ++
            ("CISCO_BANNER".toList, "hello".toList) ::
            [("INTERNAL_IP4_DNS".toList, "10.0.0.2".toList)]⟩
        (some example_provider)
      = oc_notify true
        ⟨"connect".toList,
          [("INTERNAL_IP4_ADDRESS".toList, "10.0.0.5".toList)] ++
            [("INTERNAL_IP4_DNS".toList, "10.0.0.2".toList)]⟩
        (some example_provider) :=
  oc_notify_unrecognized_key true example_provider
    [("INTERNAL_IP4_ADDRESS".toList, "10.0.0.5".toList)]
    [("INTERNAL_IP4_DNS".toList, "10.0.0.2".toList)]
    "CISCO_BANNER".toList "hello".toList
    (by decide) (by decide) (by decide) (by decide) (by decide) (by decide) (by decide)
    (by decide) (by decide) (by decide) (by decide)

/-! ## Properties of `oc_connect` -/

theorem run_connect_cb_calls (env : connect_env) (w : oc_world) (if_name : CStr) (cb : Bool)
    (vpncookie : Option CStr) :
    (run_connect env w if_name cb vpncookie).2.cb_calls
      = if cb = true then w.cb_calls ++ [(run_connect env w if_name cb vpncookie).1]
        else w.cb_calls := rfl

theorem run_connect_body_err (env : connect_env) (provider : vpn_provider)
    (task : connman_task) (if_name : CStr) (vpnhost vpncookie : Option CStr) :
    (run_connect_body env provider task if_name vpnhost vpncookie).1 = -EINVAL ∨
    (run_connect_body env provider task if_name vpnhost vpncookie).1 = - EIO ∨
    0 ≤ (run_connect_body env provider task if_name vpnhost vpncookie).1 := by
  have herr : ∀ (c : Prop) [Decidable c] (x y : Int × vpn_provider × connman_task),
      (if c then x else y).1 = if c then x.1 else y.1 := by
    intro c _ x y; split <;> rfl
  cases vpncookie with
  | none => exact Or.inl rfl
  | some cookie =>
    unfold run_connect_body
    simp only [herr, connman_task_run]
    by_cases h : env.task_run_err < 0
    · rw [if_pos h]; exact Or.inr (Or.inl rfl)
    · rw [if_neg h]
      split_ifs
      · exact Or.inr (Or.inl rfl)
      · exact Or.inr (Or.inl rfl)
      · exact Or.inr (Or.inr (not_lt.mp h))

theorem run_connect_not_inprogress (env : connect_env) (w : oc_world) (if_name : CStr)
    (cb : Bool) (vpncookie : Option CStr) :
    (run_connect env w if_name cb vpncookie).1 ≠ -EINPROGRESS := by
  have h := run_connect_body_err env w.provider w.task if_name
    (vpn_provider_get_string w.provider "Host".toList) vpncookie
  have hv : (run_connect env w if_name cb vpncookie).1
      = (run_connect_body env w.provider w.task if_name
          (vpn_provider_get_string w.provider "Host".toList) vpncookie).1 := rfl
  rw [hv]
  intro hc
  rw [hc] at h
  revert h
  decide

theorem request_cookie_input_pending {α : Type} (env : agent_env)
    (provider : Option vpn_provider) (callback : Option (Option CStr → Option CStr → α)) :
    ((request_cookie_input env provider callback).1 ≠ -EINPROGRESS →
      (request_cookie_input env provider callback).2 = none) ∧
    ((request_cookie_input env provider callback).1 = -EINPROGRESS →
      env.queue_err ≠ -EINPROGRESS →
      (request_cookie_input env provider callback).2 = callback) := by
  have h1 : (-ESRCH : Int) ≠ -EINPROGRESS := by decide
  have h2 : (-ENOMEM : Int) ≠ -EINPROGRESS := by decide
  unfold request_cookie_input
  by_cases hq : env.queue_err < 0 ∧ env.queue_err ≠ -EBUSY
  · simp only [if_pos hq]
    split_ifs
    · exact ⟨fun _ => rfl, fun hc => absurd hc h1⟩
    · exact ⟨fun _ => rfl, fun hc => absurd hc h2⟩
    · exact ⟨fun _ => rfl, fun hc => absurd hc h2⟩
    · exact ⟨fun _ => rfl, fun hc hne => absurd hc hne⟩
  · simp only [if_neg hq]
    split_ifs
    · exact ⟨fun _ => rfl, fun hc => absurd hc h1⟩
    · exact ⟨fun _ => rfl, fun hc => absurd hc h2⟩
    · exact ⟨fun _ => rfl, fun hc => absurd hc h2⟩
    · exact ⟨fun hc => absurd rfl hc, fun _ _ => rfl⟩

theorem oc_connect_cached (cenv : connect_env) (aenv : agent_env) (data_ok : Bool)
    (w : oc_world) (if_name : CStr) (cb : Bool)
    (hhost : vpn_provider_get_string w.provider "Host".toList ≠ none)
    (hcookie : vpn_provider_get_string w.provider "OpenConnect.Cookie".toList ≠ none) :
    oc_connect cenv aenv data_ok w if_name cb
      = ((run_connect cenv w if_name cb
            (vpn_provider_get_string w.provider "OpenConnect.Cookie".toList)).1,
         (run_connect cenv w if_name cb
            (vpn_provider_get_string w.provider "OpenConnect.Cookie".toList)).2, none) := by
  unfold oc_connect
  simp only [if_neg hhost, if_neg hcookie]

theorem oc_connect_nomem (cenv : connect_env) (aenv : agent_env) (w : oc_world)
    (if_name : CStr) (cb : Bool)
    (hhost : vpn_provider_get_string w.provider "Host".toList ≠ none)
    (hcookie : vpn_provider_get_string w.provider "OpenConnect.Cookie".toList = none) :
    oc_connect cenv aenv false w if_name cb = (-ENOMEM, w, none) := by
  unfold oc_connect
  simp only [if_neg hhost, if_pos hcookie, if_true]

theorem oc_connect_requested (cenv : connect_env) (aenv : agent_env) (w : oc_world)
    (if_name : CStr) (cb : Bool)
    (hhost : vpn_provider_get_string w.provider "Host".toList ≠ none)
    (hcookie : vpn_provider_get_string w.provider "OpenConnect.Cookie".toList = none) :
    oc_connect cenv aenv true w if_name cb
      = if (request_cookie_input aenv (some w.provider)
              (some (request_input_cb { if_name := if_name, cb := cb }))).1 ≠ -EINPROGRESS then
          ((run_connect cenv w if_name cb none).1, (run_connect cenv w if_name cb none).2,
            (request_cookie_input aenv (some w.provider)
              (some (request_input_cb { if_name := if_name, cb := cb }))).2)
        else
          ((request_cookie_input aenv (some w.provider)
              (some (request_input_cb { if_name := if_name, cb := cb }))).1, w,
            (request_cookie_input aenv (some w.provider)
              (some (request_input_cb { if_name := if_name, cb := cb }))).2) := by
  unfold oc_connect
  simp only [if_neg hhost, Bool.true_eq_false, if_false, hcookie, if_true]

theorem request_input_cookie_reply_calls {α : Type} (reply : dbus_reply)
    (callback : Option CStr → Option CStr → α) :
    ∃ cookie error, request_input_cookie_reply reply callback = callback cookie error := by
  cases reply with
  | error name => exact ⟨none, some name, rfl⟩
  | method_return dict =>
    cases dict with
    | none => exact ⟨none, none, rfl⟩
    | some entries => exact ⟨request_input_cookie_scan entries none, none, rfl⟩

/-- C11, as stated, fails on the code: with `Host` set, no cached cookie and a completion
callback, when the `struct oc_private_data` cannot be allocated `oc_connect` returns
`-ENOMEM`, which is not the in-progress marker, and the callback has not been called. -/
theorem oc_connect_callback_once_counterexample :
    vpn_provider_get_string example_world.provider "Host".toList
      = some "vpn.example.com".toList ∧
    (oc_connect (example_env []) (example_agent 0) false example_world "vpn0".toList true).1
      = -ENOMEM ∧
    -ENOMEM ≠ -EINPROGRESS ∧
    (oc_connect (example_env []) (example_agent 0) false example_world "vpn0".toList
      true).2.1.cb_calls = [] := by
  decide

/-- C11, amended. For every provider with `Host` set and a completion callback that is not
`NULL` (the agent queue answering the request with something other than `-EINPROGRESS`):
* if `oc_connect` returns `-EINPROGRESS`, the callback has not been called yet, a
  continuation is left with the agent queue, and delivering any reply (success, malformed or
  error) to `request_input_cookie_reply` with that continuation calls the callback exactly
  once;
* if `oc_connect` returns anything else and either a cookie was cached or the private record
  of the attempt was allocated, the callback was called exactly once before the return, with
  the status returned;
* if no cookie is cached and the private record cannot be allocated, `oc_connect` returns
  `-ENOMEM` and the callback is not called. -/
theorem oc_connect_callback_once (cenv : connect_env) (aenv : agent_env) (data_ok : Bool)
    (w : oc_world) (if_name : CStr)
    (hhost : vpn_provider_get_string w.provider "Host".toList ≠ none)
    (hq : aenv.queue_err ≠ -EINPROGRESS) :
    ((oc_connect cenv aenv data_ok w if_name true).1 = -EINPROGRESS →
      (oc_connect cenv aenv data_ok w if_name true).2.1.cb_calls = w.cb_calls ∧
      ∃ k, (oc_connect cenv aenv data_ok w if_name true).2.2 = some k ∧
        ∀ (reply : dbus_reply) (cenv' : connect_env) (w' : oc_world),
          ∃ status, (request_input_cookie_reply reply k cenv' w').cb_calls
            = w'.cb_calls ++ [status]) ∧
    ((oc_connect cenv aenv data_ok w if_name true).1 ≠ -EINPROGRESS →
      (vpn_provider_get_string w.provider "OpenConnect.Cookie".toList ≠ none ∨
        data_ok = true) →
      (oc_connect cenv aenv data_ok w if_name true).2.1.cb_calls
        = w.cb_calls ++ [(oc_connect cenv aenv data_ok w if_name true).1]) ∧
    (vpn_provider_get_string w.provider "OpenConnect.Cookie".toList = none →
      data_ok = false →
      (oc_connect cenv aenv data_ok w if_name true).1 = -ENOMEM ∧
      (oc_connect cenv aenv data_ok w if_name true).2.1.cb_calls = w.cb_calls) := by
  have hnomem : (-ENOMEM : Int) ≠ -EINPROGRESS := by decide
  by_cases hcookie : vpn_provider_get_string w.provider "OpenConnect.Cookie".toList = none
  · cases data_ok with
    | false =>
      rw [oc_connect_nomem cenv aenv w if_name true hhost hcookie]
      refine ⟨fun hc => absurd hc hnomem, fun _ hor => ?_, fun _ _ => ⟨rfl, rfl⟩⟩
      rcases hor with h | h
      · exact absurd hcookie h
      · cases h
    | true =>
      rw [oc_connect_requested cenv aenv w if_name true hhost hcookie]
      have hp := request_cookie_input_pending aenv (some w.provider)
        (some (request_input_cb { if_name := if_name, cb := true }))
      by_cases hr : (request_cookie_input aenv (some w.provider)
          (some (request_input_cb { if_name := if_name, cb := true }))).1 ≠ -EINPROGRESS
      · rw [if_pos hr]
        refine ⟨fun hc => absurd hc (run_connect_not_inprogress cenv w if_name true none),
          fun _ _ => ?_, fun _ hc => by cases hc⟩
        simp only [run_connect_cb_calls, if_true]
      · rw [if_neg hr]
        have hr' := not_not.mp hr
        refine ⟨fun _ => ⟨rfl, _, hp.2 hr' hq, ?_⟩, fun hc => absurd hr' hc,
          fun _ hc => by cases hc⟩
        intro reply cenv' w'
        obtain ⟨cookie, error, hcall⟩ := request_input_cookie_reply_calls reply
          (request_input_cb { if_name := if_name, cb := true })
        rw [hcall]
        exact ⟨(run_connect cenv' w' if_name true cookie).1, rfl⟩
  · rw [oc_connect_cached cenv aenv data_ok w if_name true hhost hcookie]
    refine ⟨fun hc => absurd hc (run_connect_not_inprogress cenv w if_name true _),
      fun _ _ => ?_, fun hc => absurd hc hcookie⟩
    simp only [run_connect_cb_calls, if_true]

/-- Instance of amended C11: no cookie is cached and the agent queue accepts the request;
`oc_connect` returns `-EINPROGRESS` without calling the callback, and the reply calls it
once. -/
theorem oc_connect_callback_once_witness :
    (oc_connect (example_env []) (example_agent 0) true example_world "vpn0".toList
      true).2.1.cb_calls = example_world.cb_calls ∧
    ∃ k, (oc_connect (example_env []) (example_agent 0) true example_world "vpn0".toList
        true).2.2 = some k ∧
      ∀ (reply : dbus_reply) (cenv' : connect_env) (w' : oc_world),
        ∃ status, (request_input_cookie_reply reply k cenv' w').cb_calls
          = w'.cb_calls ++ [status] :=
  (oc_connect_callback_once (example_env []) (example_agent 0) true example_world
    "vpn0".toList (by decide) (by decide)).1 (by decide)

/-- C18. When `oc_connect` finds `Host` set and no cached cookie, and the credential
request it issues fails at once with any value other than `-EINPROGRESS` (for instance
`-ESRCH`, no agent registered), that value is not surfaced: `oc_connect` falls through to
`run_connect` with no cookie, so nothing is spawned (the task and the provider are left as
they were, no continuation stays with the agent queue), the completion callback, when there
is one, is called once with `-EINVAL`, and `-EINVAL` is returned. -/
theorem oc_connect_request_failure (cenv : connect_env) (aenv : agent_env) (w : oc_world)
    (if_name : CStr) (cb : Bool)
    (hhost : vpn_provider_get_string w.provider "Host".toList ≠ none)
    (hcookie : vpn_provider_get_string w.provider "OpenConnect.Cookie".toList = none)
    (hreq : (request_cookie_input aenv (some w.provider)
      (some (request_input_cb { if_name := if_name, cb := cb }))).1 ≠ -EINPROGRESS) :
    (oc_connect cenv aenv true w if_name cb).1 = -EINVAL ∧
    (oc_connect cenv aenv true w if_name cb).2.1.task = w.task ∧
    (oc_connect cenv aenv true w if_name cb).2.1.provider = w.provider ∧
    (oc_connect cenv aenv true w if_name cb).2.1.cb_calls
      = (if cb = true then w.cb_calls ++ [-EINVAL] else w.cb_calls) ∧
    (oc_connect cenv aenv true w if_name cb).2.2 = none := by
  rw [oc_connect_requested cenv aenv w if_name cb hhost hcookie, if_pos hreq]
  have hp := (request_cookie_input_pending aenv (some w.provider)
    (some (request_input_cb { if_name := if_name, cb := cb }))).1 hreq
  refine ⟨?_, ?_, ?_, ?_, hp⟩ <;> simp only [run_connect, run_connect_body]

/-- Instance of C18: no agent is registered, the request fails with `-ESRCH`, and
`oc_connect` returns `-EINVAL` after calling the callback with `-EINVAL`. -/
theorem oc_connect_request_failure_witness :
    (request_cookie_input
        { agent_path := none, message_ok := true, cookie_reply_ok := true, queue_err := 0 }
        (some example_world.provider)
        (some (request_input_cb { if_name := "vpn0".toList, cb := true }))).1 = -ESRCH ∧
    (oc_connect (example_env [])
        { agent_path := none, message_ok := true, cookie_reply_ok := true, queue_err := 0 }
        true example_world "vpn0".toList true).1 = -EINVAL ∧
    (oc_connect (example_env [])
        { agent_path := none, message_ok := true, cookie_reply_ok := true, queue_err := 0 }
        true example_world "vpn0".toList true).2.1.cb_calls = [-EINVAL] :=
  have h := oc_connect_request_failure (example_env [])
    { agent_path := none, message_ok := true, cookie_reply_ok := true, queue_err := 0 }
    example_world "vpn0".toList true (by decide) (by decide) (by decide)
  ⟨by decide, h.1, h.2.2.2.1⟩

/-! ## Order and width in the IPv6 derivation -/

theorem last_ipv6_append (a b : List (CStr × CStr)) (acc : Option CStr × Nat) :
    last_ipv6 (a ++ b) acc = last_ipv6 b (last_ipv6 a acc) := by
  induction a generalizing acc with
  | nil => rfl
  | cons e rest ih =>
    simp only [List.cons_append, last_ipv6]
    exact ih _

theorem ipv6_of_entry_eq_none (key value : CStr)
    (h : key ≠ "INTERNAL_IP6_ADDRESS".toList ∧
      (key = "INTERNAL_IP6_NETMASK".toList → '/' ∉ value)) :
    ipv6_of_entry key value = none := by
  by_contra hc
  rcases (ipv6_of_entry_ne_none_iff key value).mp hc with hk | hk
  · exact h.1 hk
  · exact h.2 hk.1 hk.2

theorem oc_notify_v6_last (provider : vpn_provider) (pre post : List (CStr × CStr))
    (key value a : CStr) (n : Nat)
    (h4 : ∀ e ∈ pre ++ (key, value) :: post, e.1 ≠ "INTERNAL_IP4_ADDRESS".toList)
    (hx : ipv6_of_entry key value = some (a, n))
    (hpost : ∀ e ∈ post, ipv6_of_entry e.1 e.2 = none) :
    ∃ p g, oc_notify true ⟨"connect".toList, pre ++ (key, value) :: post⟩ (some provider)
        = (vpn_state.VPN_STATE_CONNECT, some p) ∧
      v6_block p = some (some a, n, g) ∧ v4_block p = none := by
  have hl : last_ipv6 (pre ++ (key, value) :: post)
      ((oc_notify_locals provider).addressv6, (oc_notify_locals provider).prefix_len)
      = (some a, n) := by
    rw [last_ipv6_append]
    simp only [last_ipv6, hx]
    exact last_ipv6_of_none post _ hpost
  have e4 := addressv4_of_absent provider _ h4
  have e6 : (oc_notify_loop (pre ++ (key, value) :: post) (oc_notify_locals provider)
      provider).1.addressv6 = some a := by
    rw [loop_addressv6, hl]
  have ep : (oc_notify_loop (pre ++ (key, value) :: post) (oc_notify_locals provider)
      provider).1.prefix_len = n := by
    rw [loop_prefix_len, hl]
  refine ⟨_, (oc_notify_loop (pre ++ (key, value) :: post) (oc_notify_locals provider)
    provider).1.gateway, oc_notify_of_v6 provider _ a e4 e6, ?_, ?_⟩
  · simp only [v6_block, if_true, ep]
  · simp [v4_block]

theorem entry_netmask_without_slash (value : CStr) (l : notify_locals)
    (provider : vpn_provider) (h : '/' ∉ value) :
    oc_notify_entry "INTERNAL_IP6_NETMASK".toList value l provider = (l, provider) := by
  have hs := (strchr_eq_none_iff value '/').mpr h
  have h1 : ¬ "INTERNAL_IP6_NETMASK".toList = "VPNGATEWAY".toList := by decide
  have h2 : ¬ "INTERNAL_IP6_NETMASK".toList = "INTERNAL_IP4_ADDRESS".toList := by decide
  have h3 : ¬ "INTERNAL_IP6_NETMASK".toList = "INTERNAL_IP6_ADDRESS".toList := by decide
  have h4 : ¬ "INTERNAL_IP6_NETMASK".toList = "INTERNAL_IP4_NETMASK".toList := by decide
  have h5 : ¬ ("INTERNAL_IP6_NETMASK".toList = "INTERNAL_IP4_DNS".toList ∨
      "INTERNAL_IP6_NETMASK".toList = "INTERNAL_IP6_DNS".toList) := by decide
  have h6 : ¬ "INTERNAL_IP6_NETMASK".toList = "CISCO_PROXY_PAC".toList := by decide
  have h7 : ¬ (l.domain = none ∧ "INTERNAL_IP6_NETMASK".toList = "CISCO_DEF_DOMAIN".toList) :=
    fun hc => absurd hc.2 (by decide)
  have h8 : ¬ ( g_str_has_prefix "INTERNAL_IP6_NETMASK".toList "CISCO_SPLIT_INC".toList = true ∨
      g_str_has_prefix "INTERNAL_IP6_NETMASK".toList "CISCO_IPV6_SPLIT_INC".toList = true) := by
    decide
  unfold oc_notify_entry
  simp only [if_neg h1, if_neg h2, if_neg h3, if_neg h4, if_neg h5, if_neg h6, if_neg h7,
    if_neg h8, if_true, hs]

/-- C19, as stated, fails on the code: with the address entry first and the netmask entry
later, the pair is not always `(A, P)`.  `fd00::5/300` gives the prefix 44, an address part
of 256 bytes gives the empty address, and when `connman_ipaddress_alloc` returns `NULL` the
call reports FAILURE and no IPv6 block is given. -/
theorem oc_notify_ipv6_last_wins_counterexample :
    (oc_notify true
        ⟨"connect".toList,
          [("INTERNAL_IP6_ADDRESS".toList, "fd00::1".toList),
           ("INTERNAL_IP6_NETMASK".toList, "fd00::5".toList ++ '/' :: "300".toList)]⟩
        (some example_provider)).2.bind v6_block
      = some (some "fd00::5".toList, 44, none) ∧
    '/' ∉ List.replicate 256 'a' ∧
    (∃ p g, oc_notify true
        ⟨"connect".toList,
          [("INTERNAL_IP6_ADDRESS".toList, "fd00::1".toList)] ++
            ("INTERNAL_IP6_NETMASK".toList, List.replicate 256 'a' ++ '/' :: "64".toList) ::
            []⟩
        (some example_provider) = (vpn_state.VPN_STATE_CONNECT, some p) ∧
      v6_block p = some (some [], 64, g)) ∧
    (oc_notify false
        ⟨"connect".toList,
          [("INTERNAL_IP6_ADDRESS".toList, "fd00::1".toList),
           ("INTERNAL_IP6_NETMASK".toList, "fd00::5".toList ++ '/' :: "64".toList)]⟩
        (some example_provider)).1 = vpn_state.VPN_STATE_FAILURE := by
  have hA : '/' ∉ List.replicate 256 'a' :=
    fun h => absurd (List.eq_of_mem_replicate h) (by decide)
  refine ⟨by decide, hA, ?_, by decide⟩
  have hx : ipv6_of_entry "INTERNAL_IP6_NETMASK".toList
      (List.replicate 256 'a' ++ '/' :: "64".toList) = some ([], 64) := by
    rw [ipv6_of_netmask_entry _ _ hA, List.length_replicate]
    have h0 : 256 % 256 = 0 := rfl
    have h64 : to_uchar (strtol "64".toList) = 64 := by decide
    rw [h0, List.take_zero, h64]
  obtain ⟨p, g, hp, hb, _⟩ := oc_notify_v6_last example_provider
    [("INTERNAL_IP6_ADDRESS".toList, "fd00::1".toList)] []
    "INTERNAL_IP6_NETMASK".toList (List.replicate 256 'a' ++ '/' :: "64".toList) [] 64
    (by
      intro e he
      rcases List.mem_append.mp he with h | h
      · rw [List.mem_singleton.mp h]; decide
      · rw [List.mem_singleton.mp h]; decide)
    hx (by intro e he; cases he)
  exact ⟨p, g, hp, hb⟩

/-- C19, amended. IPv6 derivation is order-dependent, the last entry wins.  For every
dictionary with no `INTERNAL_IP4_ADDRESS` that contains both `INTERNAL_IP6_ADDRESS = a` and
`INTERNAL_IP6_NETMASK = A/P` (`A` without '/'), no later entry deriving an IPv6 address, when
the address block is allocated:
* if the netmask entry is the later one, address and prefix both come from it: the address
  is the first `|A| mod 256` bytes of `A` and the prefix is `strtol(P)` as an
  `unsigned char`;
* if the address entry is the later one, the address is `a` and the prefix is 128;
* an `INTERNAL_IP6_NETMASK` entry without '/' changes neither: inserting it anywhere leaves
  the result of `oc_notify` as it is;
* in the first case, when `A` is shorter than 256 bytes and `P` is the decimal spelling of
  `n < 256`, the address is `A` and the prefix is `n`.
When `connman_ipaddress_alloc` returns `NULL`, the call reports FAILURE in either order. -/
theorem oc_notify_ipv6_last_wins (provider : vpn_provider)
    (dict1 dict2 dict3 : List (CStr × CStr)) (a A P : CStr)
    (h4 : ∀ e ∈ dict1 ++ dict2 ++ dict3, e.1 ≠ "INTERNAL_IP4_ADDRESS".toList)
    (h3 : ∀ e ∈ dict3, e.1 ≠ "INTERNAL_IP6_ADDRESS".toList ∧
      (e.1 = "INTERNAL_IP6_NETMASK".toList → '/' ∉ e.2))
    (hA : '/' ∉ A) :
    (∃ p g, oc_notify true
        ⟨"connect".toList,
          dict1 ++ ("INTERNAL_IP6_ADDRESS".toList, a) :: dict2 ++
            ("INTERNAL_IP6_NETMASK".toList, A ++ '/' :: P) :: dict3⟩
        (some provider) = (vpn_state.VPN_STATE_CONNECT, some p) ∧
      v6_block p = some (some (A.take (A.length % 256)), to_uchar (strtol P), g)) ∧
    (∃ p g, oc_notify true
        ⟨"connect".toList,
          dict1 ++ ("INTERNAL_IP6_NETMASK".toList, A ++ '/' :: P) :: dict2 ++
            ("INTERNAL_IP6_ADDRESS".toList, a) :: dict3⟩
        (some provider) = (vpn_state.VPN_STATE_CONNECT, some p) ∧
      v6_block p = some (some a, 128, g)) ∧
    (∀ (alloc_ok : Bool) (before after : List (CStr × CStr)) (value : CStr), '/' ∉ value →
      oc_notify alloc_ok
          ⟨"connect".toList, before ++ ("INTERNAL_IP6_NETMASK".toList, value) :: after⟩
          (some provider)
        = oc_notify alloc_ok ⟨"connect".toList, before ++ after⟩ (some provider)) ∧
    (A.length < 256 → ∀ n, n < 256 → P = (Nat.repr n).toList →
      ∃ p g, oc_notify true
          ⟨"connect".toList,
            dict1 ++ ("INTERNAL_IP6_ADDRESS".toList, a) :: dict2 ++
              ("INTERNAL_IP6_NETMASK".toList, A ++ '/' :: P) :: dict3⟩
          (some provider) = (vpn_state.VPN_STATE_CONNECT, some p) ∧
        v6_block p = some (some A, n, g)) ∧
    ((oc_notify false
        ⟨"connect".toList,
          dict1 ++ ("INTERNAL_IP6_ADDRESS".toList, a) :: dict2 ++
            ("INTERNAL_IP6_NETMASK".toList, A ++ '/' :: P) :: dict3⟩
        (some provider)).1 = vpn_state.VPN_STATE_FAILURE ∧
      (oc_notify false
        ⟨"connect".toList,
          dict1 ++ ("INTERNAL_IP6_NETMASK".toList, A ++ '/' :: P) :: dict2 ++
            ("INTERNAL_IP6_ADDRESS".toList, a) :: dict3⟩
        (some provider)).1 = vpn_state.VPN_STATE_FAILURE) := by
  have hpost : ∀ e ∈ dict3, ipv6_of_entry e.1 e.2 = none :=
    fun e he => ipv6_of_entry_eq_none e.1 e.2 (h3 e he)
  have hk6a : ¬ "INTERNAL_IP6_ADDRESS".toList = "INTERNAL_IP4_ADDRESS".toList := by decide
  have hk6n : ¬ "INTERNAL_IP6_NETMASK".toList = "INTERNAL_IP4_ADDRESS".toList := by decide
  have hmem : ∀ (x y : CStr × CStr),
      x.1 ≠ "INTERNAL_IP4_ADDRESS".toList → y.1 ≠ "INTERNAL_IP4_ADDRESS".toList →
      ∀ e ∈ dict1 ++ x :: dict2 ++ y :: dict3, e.1 ≠ "INTERNAL_IP4_ADDRESS".toList := by
    intro x y hx hy e he
    rcases List.mem_append.mp he with he | he
    · rcases List.mem_append.mp he with he | he
      · exact h4 e (List.mem_append_left _ (List.mem_append_left _ he))
      · rcases List.mem_cons.mp he with rfl | he
        · exact hx
        · exact h4 e (List.mem_append_left _ (List.mem_append_right _ he))
    · rcases List.mem_cons.mp he with rfl | he
      · exact hy
      · exact h4 e (List.mem_append_right _ he)
  have hfirst := oc_notify_v6_last provider
      (dict1 ++ ("INTERNAL_IP6_ADDRESS".toList, a) :: dict2) dict3
      "INTERNAL_IP6_NETMASK".toList (A ++ '/' :: P) _ _
      (hmem _ _ hk6a hk6n) (ipv6_of_netmask_entry A P hA) hpost
  refine ⟨?_, ?_, ?_, ?_, ⟨oc_notify_alloc_failure provider _,
    oc_notify_alloc_failure provider _⟩⟩
  · obtain ⟨p, g, hp, hb, _⟩ := hfirst
    exact ⟨p, g, hp, hb⟩
  · have hx : ipv6_of_entry "INTERNAL_IP6_ADDRESS".toList a = some (a, 128) := by
      unfold ipv6_of_entry
      rw [if_pos rfl]
    obtain ⟨p, g, hp, hb, _⟩ := oc_notify_v6_last provider
      (dict1 ++ ("INTERNAL_IP6_NETMASK".toList, A ++ '/' :: P) :: dict2) dict3
      "INTERNAL_IP6_ADDRESS".toList a _ _ (hmem _ _ hk6n hk6a) hx hpost
    exact ⟨p, g, hp, hb⟩
  · intro alloc_ok before after value hv
    have hloop : oc_notify_loop (before ++ ("INTERNAL_IP6_NETMASK".toList, value) :: after)
        (oc_notify_locals provider) provider
        = oc_notify_loop (before ++ after) (oc_notify_locals provider) provider := by
      rw [loop_append, loop_append]
      simp only [oc_notify_loop, entry_netmask_without_slash value _ _ hv]
    simp only [oc_notify, hloop]
  · intro hlen n hn hP
    obtain ⟨p, g, hp, hb, _⟩ := hfirst
    refine ⟨p, g, hp, ?_⟩
    rw [hb, Nat.mod_eq_of_lt hlen, List.take_length, hP,
      strtol_repr n (by unfold LONG_MAX; omega)]
    simp only [to_uchar]
    congr 3
    omega

/-- Instance of amended C19: address `fd00::1` then netmask `fd00::5/64` gives `fd00::5` and 64;
netmask then address gives `fd00::1` and 128. -/
theorem oc_notify_ipv6_last_wins_witness :
    (∃ p g, oc_notify true
        ⟨"connect".toList,
          [] ++ ("INTERNAL_IP6_ADDRESS".toList, "fd00::1".toList) :: [] ++
            ("INTERNAL_IP6_NETMASK".toList, "fd00::5".toList ++ '/' :: "64".toList) :: []⟩
        (some example_provider) = (vpn_state.VPN_STATE_CONNECT, some p) ∧
      v6_block p = some (some ("fd00::5".toList.take ("fd00::5".toList.length % 256)),
        to_uchar (strtol "64".toList), g)) ∧
    (∃ p g, oc_notify true
        ⟨"connect".toList,
          [] ++ ("INTERNAL_IP6_NETMASK".toList, "fd00::5".toList ++ '/' :: "64".toList) :: [] ++
            ("INTERNAL_IP6_ADDRESS".toList, "fd00::1".toList) :: []⟩
        (some example_provider) = (vpn_state.VPN_STATE_CONNECT, some p) ∧
      v6_block p = some (some "fd00::1".toList, 128, g)) :=
  have h := oc_notify_ipv6_last_wins example_provider [] [] [] "fd00::1".toList
    "fd00::5".toList "64".toList (by decide) (by decide) (by decide)
  ⟨h.1, h.2.1⟩

theorem strtol_digits_eq_foldl (cs : CStr) (acc : Nat) :
    strtol_digits cs acc
      = (cs.takeWhile isdigit).foldl (fun acc c => acc * 10 + (c.toNat - '0'.toNat)) acc := by
  induction cs generalizing acc with
  | nil => rfl
  | cons c rest ih =>
    by_cases hc : isdigit c = true
    · simp only [strtol_digits, hc, if_true, List.takeWhile_cons_of_pos, List.foldl_cons]
      exact ih _
    · simp only [strtol_digits, hc, if_false, Bool.false_eq_true]
      rw [List.takeWhile_cons_of_neg hc]
      rfl

theorem strtol_eq_clamp (P : CStr) :
    strtol P =
      if leading_decimal P < LONG_MIN then LONG_MIN
      else if LONG_MAX < leading_decimal P then LONG_MAX
      else leading_decimal P := by
  have hmin : LONG_MIN < 0 := by decide
  have hmax : 0 < LONG_MAX := by decide
  unfold strtol leading_decimal decimal_value
  split
  · rename_i cs heq
    simp only [strtol_digits_eq_foldl]
    split_ifs <;> first | rfl | omega
  · rename_i cs heq
    simp only [strtol_digits_eq_foldl]
    split_ifs <;> first | rfl | omega
  · simp only [strtol_digits_eq_foldl]
    split_ifs <;> first | rfl | omega

theorem to_uchar_lt (x : Int) : to_uchar x < 256 := by
  unfold to_uchar
  have h1 : 0 ≤ x % 256 := Int.emod_nonneg x (by norm_num)
  have h2 : x % 256 < 256 := Int.emod_lt_of_pos x (by norm_num)
  omega

theorem to_uchar_cast (x : Int) : (to_uchar x : Int) = x % 256 := by
  unfold to_uchar
  exact Int.toNat_of_nonneg (Int.emod_nonneg x (by norm_num))

theorem take_mod_eq_self_iff (A : CStr) : A.take (A.length % 256) = A ↔ A.length < 256 := by
  constructor
  · intro h
    have hl := congrArg List.length h
    rw [List.length_take] at hl
    have hm : A.length % 256 < 256 := Nat.mod_lt _ (by norm_num)
    omega
  · intro h
    rw [Nat.mod_eq_of_lt h, List.take_length]

/-- C20, as stated, fails on the code: the prefix is not the leading decimal integer of `P`
modulo 256 when that integer does not fit in a `long`, because `strtol` saturates.  For
`P = 9223372036854775808` (2 ^ 63) the integer is 0 modulo 256, and the prefix derived is
255. -/
theorem netmask_split_width_counterexample :
    leading_decimal "9223372036854775808".toList % 256 = 0 ∧
    (oc_notify_entry "INTERNAL_IP6_NETMASK".toList
        ("fd00::5".toList ++ '/' :: "9223372036854775808".toList)
        (oc_notify_locals example_provider) example_provider).1.prefix_len = 255 ∧
    (oc_notify_entry "INTERNAL_IP6_NETMASK".toList
        ("fd00::5".toList ++ '/' :: "9223372036854775808".toList)
        (oc_notify_locals example_provider) example_provider).1.addressv6
      = some "fd00::5".toList := by
  decide

/-- C20, amended. Byte-width truncation in the `INTERNAL_IP6_NETMASK` split: for every
value `A/P` with `A` free of '/', the entry sets the address to the first `|A| mod 256` bytes
of `A` and the prefix length to a value in 0..255, which is the leading decimal integer of
`P` (0 if none) modulo 256 as long as that integer fits in a `long`; beyond that range
`strtol` saturates and the prefix is 255 (integer above `LONG_MAX`) or 0 (integer below
`LONG_MIN`).  Prefix values above 128 are not rejected, and the address equals `A` exactly
when `|A| < 256`. -/
theorem netmask_split_width (A P : CStr) (l : notify_locals) (provider : vpn_provider)
    (hA : '/' ∉ A) :
    (oc_notify_entry "INTERNAL_IP6_NETMASK".toList (A ++ '/' :: P) l provider).1.addressv6
      = some (A.take (A.length % 256)) ∧
    (oc_notify_entry "INTERNAL_IP6_NETMASK".toList (A ++ '/' :: P) l provider).1.prefix_len
      < 256 ∧
    (LONG_MIN ≤ leading_decimal P → leading_decimal P ≤ LONG_MAX →
      ((oc_notify_entry "INTERNAL_IP6_NETMASK".toList (A ++ '/' :: P) l
          provider).1.prefix_len : Int) = leading_decimal P % 256) ∧
    (LONG_MAX < leading_decimal P →
      (oc_notify_entry "INTERNAL_IP6_NETMASK".toList (A ++ '/' :: P) l
          provider).1.prefix_len = 255) ∧
    (leading_decimal P < LONG_MIN →
      (oc_notify_entry "INTERNAL_IP6_NETMASK".toList (A ++ '/' :: P) l
          provider).1.prefix_len = 0) ∧
    (A.take (A.length % 256) = A ↔ A.length < 256) := by
  have he := entry_ipv6 "INTERNAL_IP6_NETMASK".toList (A ++ '/' :: P) l provider
  rw [ipv6_of_netmask_entry A P hA] at he
  have ha := congrArg Prod.fst he
  have hp := congrArg Prod.snd he
  simp only at ha hp
  have hmin : LONG_MIN < LONG_MAX := by decide
  refine ⟨ha, ?_, ?_, ?_, ?_, take_mod_eq_self_iff A⟩
  · rw [hp]; exact to_uchar_lt _
  · intro h1 h2
    rw [hp, to_uchar_cast, strtol_eq_clamp, if_neg (not_lt.mpr h1), if_neg (not_lt.mpr h2)]
  · intro h
    have h' : ¬ leading_decimal P < LONG_MIN := by omega
    rw [hp, strtol_eq_clamp, if_neg h', if_pos h]
    decide
  · intro h
    rw [hp, strtol_eq_clamp, if_pos h]
    decide

/-- Instance of amended C20: `fd00::5/200` gives the address `fd00::5` and the prefix 200,
which is above 128 and is not rejected. -/
theorem netmask_split_width_witness :
    (oc_notify_entry "INTERNAL_IP6_NETMASK".toList ("fd00::5".toList ++ '/' :: "200".toList)
        (oc_notify_locals example_provider) example_provider).1.addressv6
      = some ("fd00::5".toList.take ("fd00::5".toList.length % 256)) ∧
    ((oc_notify_entry "INTERNAL_IP6_NETMASK".toList ("fd00::5".toList ++ '/' :: "200".toList)
        (oc_notify_locals example_provider) example_provider).1.prefix_len : Int)
      = leading_decimal "200".toList % 256 ∧
    leading_decimal "200".toList % 256 = 200 :=
  have h := netmask_split_width "fd00::5".toList "200".toList
    (oc_notify_locals example_provider) example_provider (by decide)
  ⟨h.1, h.2.2.1 (by decide) (by decide), by decide⟩

end OpenConnect
